import Mathlib

/-! GoTogether: a verification development of the client-side data shaping.

The repository is a React single-page client.  The logic modelled here is the
part of the page components that shapes data: form validation, the bearer-token
request interceptor, error handling of the load handlers, the reconciliation of
a ride request's status, list extraction from response bodies, the filters and
the sort of the ride list, reverse geocoding with the location cache, and the
ownership and eligibility tests of the ride pages.

JavaScript values are embedded as the inductive type `JSVal`.  A finite number
is an integer (seat counts, prices in the smallest unit); comparison, zero test
and the sign of a difference are the only numeric operations the modelled code
performs.  A `TypeError` or `ReferenceError` raised by the code is the `Except`
error `typeError` or `referenceError`.
-/

namespace GoTogether

/-! ## JavaScript values -/

/-- A JavaScript value as it is parsed from a JSON body or held in component state. -/
inductive JSVal where
  | undefined
  | null
  | bool (b : Bool)
  | num (n : Int)
  | nan
  | str (s : String)
  | arr (items : List JSVal)
  | obj (fields : List (String × JSVal))
  deriving Inhabited

/-- The exceptions a JavaScript expression can raise in the modelled code. -/
inductive JSError where
  | typeError
  | referenceError
  deriving DecidableEq, Repr, Inhabited

/-- Own-property lookup in the field list of an object; `undefined` when absent. -/
def lookup (k : String) : List (String × JSVal) → JSVal
  | [] => .undefined
  | (k', v) :: rest => if k' = k then v else lookup k rest

/-- Assignment `o[k] = v` on the field list of an object: an existing key keeps its
position, a new key is appended. -/
def assign (k : String) (v : JSVal) : List (String × JSVal) → List (String × JSVal)
  | [] => [(k, v)]
  | (k', v') :: rest => if k' = k then (k', v) :: rest else (k', v') :: assign k v rest

/-- Property read `v.k` for the data property names the code reads (none of them is
a built-in property of strings, numbers, booleans or arrays): reading from
`undefined` or `null` throws, reading from another primitive or an array gives
`undefined`. -/
def JSVal.get (v : JSVal) (k : String) : Except JSError JSVal :=
  match v with
  | .undefined => .error .typeError
  | .null => .error .typeError
  | .obj fs => .ok (lookup k fs)
  | _ => .ok .undefined

/-- Optional chaining `v?.k`. -/
def JSVal.optGet (v : JSVal) (k : String) : JSVal :=
  match v with
  | .obj fs => lookup k fs
  | _ => .undefined

/-- JavaScript truthiness (`ToBoolean`). -/
def truthy : JSVal → Bool
  | .undefined => false
  | .null => false
  | .bool b => b
  | .num n => n != 0
  | .nan => false
  | .str s => s != ""
  | .arr _ => true
  | .obj _ => true

/-- Strict equality `a === b`.  The two operands compared in the modelled code always
come from different parsed documents, so two objects or two arrays are never the
same reference. -/
def strictEq : JSVal → JSVal → Bool
  | .undefined, .undefined => true
  | .null, .null => true
  | .bool a, .bool b => a == b
  | .num a, .num b => a == b
  | .str a, .str b => a == b
  | _, _ => false

/-- The operator `a || b`. -/
def jsOr (a b : JSVal) : JSVal := if truthy a then a else b

/-- The test `Array.isArray(v)`. -/
def isArray : JSVal → Bool
  | .arr _ => true
  | _ => false

/-- The test `typeof v === 'string'`. -/
def isString : JSVal → Bool
  | .str _ => true
  | _ => false

/-! ## CreateRide.handleSubmit -/

/-- A location of the create-ride form state. -/
structure LocationForm where
  type : String
  coordinates : List String
  address : String
  deriving DecidableEq, Repr, Inhabited

/-- The state `formData` of the create-ride form (`useState` in `CreateRide`). -/
structure FormData where
  carModel : String
  carNumber : String
  pickupLocation : LocationForm
  dropoffLocation : LocationForm
  time : String
  seatsAvailable : String
  price : String
  smokingAllowed : Bool
  petsAllowed : Bool
  alcoholAllowed : Bool
  genderPreference : String
  deriving DecidableEq, Repr, Inhabited

/-- The initial value of `formData`. -/
def FormData.initial : FormData :=
  { carModel := "", carNumber := "",
    pickupLocation := { type := "Point", coordinates := ["", ""], address := "" },
    dropoffLocation := { type := "Point", coordinates := ["", ""], address := "" },
    time := "", seatsAvailable := "", price := "",
    smokingAllowed := false, petsAllowed := false, alcoholAllowed := false,
    genderPreference := "any" }

/-- The element `coordinates[i]` of a form location. -/
def LocationForm.coord (l : LocationForm) (i : Nat) : JSVal :=
  match l.coordinates.get? i with
  | some s => .str s
  | none => .undefined

/-- What a handler of a page does that is visible outside it. -/
inductive Effect where
  | preventDefault
  | toastError (msg : JSVal)
  | toastSuccess (msg : String)
  | setLoading (b : Bool)
  | setError (msg : JSVal)
  | ridesCreate (data : FormData)
  | navigate (path : String)
  | setState (name : String) (value : JSVal)
  | ridesRequestRide (rideId : JSVal)
  | onRequest

/-- Function `handleSubmit` of `CreateRide`.  `user` is the value of the auth context and
`outcome` is how `rides.create` settles: `none` when it resolves, `some error` when
it rejects with `error`. -/
def handleSubmit (user : JSVal) (formData : FormData) (outcome : Option JSVal) : List Effect :=
  if !truthy user then
    [.preventDefault, .toastError (.str "You must be logged in to create rides")]
  else if !truthy (formData.pickupLocation.coord 0) || !truthy (formData.pickupLocation.coord 1) then
    [.preventDefault, .toastError (.str "Please select a pickup location using the map")]
  else if !truthy (formData.dropoffLocation.coord 0) || !truthy (formData.dropoffLocation.coord 1) then
    [.preventDefault, .toastError (.str "Please select a dropoff location using the map")]
  else
    [.preventDefault, .setLoading true, .ridesCreate formData] ++
    (match outcome with
     | none => [.toastSuccess "Ride created successfully!", .navigate "/my-rides"]
     | some error =>
       [.toastError (jsOr (((error.optGet "response").optGet "data").optGet "message")
          (.str "Failed to create ride"))]) ++
    [.setLoading false]

/-- Whether a handler run calls `rides.create`. -/
def callsCreate : List Effect → Bool
  | [] => false
  | .ridesCreate _ :: _ => true
  | _ :: rest => callsCreate rest

/-- Whether a handler run shows an error toast. -/
def showsErrorToast : List Effect → Bool
  | [] => false
  | .toastError _ :: _ => true
  | _ :: rest => showsErrorToast rest

/-- The coordinate string `coordinates[i]` of a form location is empty (or missing). -/
def LocationForm.coordEmpty (l : LocationForm) (i : Nat) : Bool :=
  l.coordinates.getD i "" == ""

/-! ## The request interceptor of the HTTP client (`services/api.jsx`) -/

/-- The request interceptor registered with `api.interceptors.request.use`.  `token` is
the result of `localStorage.getItem('token')` (`none` for `null`) and `config` the
request config; the assignment `config.headers.Authorization = ...` throws when
`config.headers` is not an object. -/
def requestInterceptor (token : Option String) (config : JSVal) : Except JSError JSVal :=
  match token with
  | none => .ok config
  | some t =>
    if truthy (.str t) then
      match config with
      | .obj fs =>
        match lookup "headers" fs with
        | .obj hs =>
          .ok (.obj (assign "headers" (.obj (assign "Authorization" (.str ("Bearer " ++ t)) hs)) fs))
        | _ => .error .typeError
      | _ => .error .typeError
    else .ok config

/-- A request config as axios hands it to the interceptor. -/
def sampleConfigFields : List (String × JSVal) :=
  [("url", .str "/api/rides/getRides"), ("method", .str "get"),
   ("headers", .obj [("Content-Type", .str "application/json")])]

/-! ## The load handlers when the API call is rejected

Each definition is the run of a load handler whose API call rejects with `error`:
the statements of the `try` block before the call, the `catch` block and the
`finally` block.  Writes to the console are not effects. -/

/-- Handler `fetchRides` of `Rides` when `ridesApi.getAllRides()` rejects with `error`. -/
def Rides.fetchRidesRejected (error : JSVal) : Except JSError (List Effect) := do
  let response ← error.get "response"
  let errorMessage ←
    if truthy response then do
      let data ← response.get "data"
      if truthy data then do
        let message ← data.get "message"
        if truthy message then pure message else pure (JSVal.str "Failed to load rides.")
      else pure (JSVal.str "Failed to load rides.")
    else pure (JSVal.str "Failed to load rides.")
  return [.setLoading true, .setError .null, .setError errorMessage, .toastError errorMessage,
    .setLoading false]

/-- Handler `fetchMyRides` of `MyRides` (with a logged-in user) when
`ridesApi.getUserRides()` rejects with `error`. -/
def MyRides.fetchMyRidesRejected (error : JSVal) : Except JSError (List Effect) := do
  let response ← error.get "response"
  if truthy response then do
    let data ← response.get "data"
    let errorMessage := jsOr (data.optGet "message") (.str "Server error. Please try again.")
    let status ← response.get "status"
    let redirect := if strictEq status (.num 401) then [Effect.navigate "/login"] else []
    return [.setLoading true, .setError .null] ++ redirect ++
      [.setError errorMessage, .toastError errorMessage, .setLoading false]
  else
    return [.setLoading true, .setError .null, .setError (.str "Failed to load your rides."),
      .toastError (.str "Failed to load your rides."), .setLoading false]

/-- Handler `fetchRideRequests` of `RideRequests` (with a logged-in user) when
`ridesApi.getUserRequests()` rejects with `error`. -/
def RideRequests.fetchRideRequestsRejected (error : JSVal) : Except JSError (List Effect) := do
  let response ← error.get "response"
  if truthy response then do
    let data ← response.get "data"
    let errorMessage := jsOr (data.optGet "message") (.str "Server error. Please try again.")
    let status ← response.get "status"
    let redirect := if strictEq status (.num 401) then [Effect.navigate "/login"] else []
    return [.setLoading true, .setError .null] ++ redirect ++
      [.setError errorMessage, .toastError errorMessage, .setLoading false]
  else
    return [.setLoading true, .setError .null,
      .setError (.str "Failed to load your ride requests."),
      .toastError (.str "Failed to load your ride requests."), .setLoading false]

/-- Handler `fetchNotifications` of `Notifications` when
`notificationsApi.getNotifications(...)` rejects with `error`. -/
def Notifications.fetchNotificationsRejected (error : JSVal) : Except JSError (List Effect) := do
  let response ← error.get "response"
  if truthy response then do
    let data ← response.get "data"
    let errorMessage := jsOr (data.optGet "message") (.str "Server error. Please try again.")
    let status ← response.get "status"
    let redirect := if strictEq status (.num 401) then [Effect.navigate "/login"] else []
    return [.setLoading true, .setError .null] ++ redirect ++
      [.setError errorMessage, .toastError errorMessage, .setLoading false]
  else
    return [.setLoading true, .setError .null,
      .setError (.str "Failed to load notifications."),
      .toastError (.str "Failed to load notifications."), .setLoading false]

/-- Handler `fetchMyReports` of `MyReports` when `reportsApi.getMyReports()` rejects
with `error`. -/
def MyReports.fetchMyReportsRejected (error : JSVal) : Except JSError (List Effect) := do
  let response ← error.get "response"
  if truthy response then do
    let data ← response.get "data"
    let errorMessage := jsOr (data.optGet "message") (.str "Server error. Please try again.")
    let status ← response.get "status"
    let redirect := if strictEq status (.num 401) then [Effect.navigate "/login"] else []
    return [.setLoading true, .setError .null] ++ redirect ++
      [.setError errorMessage, .toastError errorMessage, .setLoading false]
  else
    return [.setLoading true, .setError .null,
      .setError (.str "Failed to load your reports."),
      .toastError (.str "Failed to load your reports."), .setLoading false]

/-- Handler `fetchRideDetails` of `RideDetail` when `ridesApi.getRideById(id)` rejects
with `error`. -/
def RideDetail.fetchRideDetailsRejected (error : JSVal) : Except JSError (List Effect) := do
  let response ← error.get "response"
  let errorMessage ←
    if truthy response then do
      let status ← response.get "status"
      if strictEq status (.num 404) then pure (JSVal.str "Ride not found.")
      else do
        let data ← response.get "data"
        if truthy data then do
          let message ← data.get "message"
          if truthy message then pure message
          else pure (JSVal.str "Failed to load ride details.")
        else pure (JSVal.str "Failed to load ride details.")
    else pure (JSVal.str "Failed to load ride details.")
  return [.setLoading true, .setError .null, .setError errorMessage, .toastError errorMessage,
    .setLoading false]

/-- Handler `fetchRideDetails` of `EditRide` when `ridesApi.getRideById(id)` rejects
with `error`. -/
def EditRide.fetchRideDetailsRejected (error : JSVal) : Except JSError (List Effect) := do
  let response ← error.get "response"
  let errorMessage ←
    if truthy response then do
      let status ← response.get "status"
      if strictEq status (.num 404) then pure (JSVal.str "Ride not found.")
      else do
        let data ← response.get "data"
        if truthy data then do
          let message ← data.get "message"
          if truthy message then pure message
          else pure (JSVal.str "Failed to load ride details.")
        else pure (JSVal.str "Failed to load ride details.")
    else pure (JSVal.str "Failed to load ride details.")
  return [.setLoading true, .setError .null, .setError errorMessage, .toastError errorMessage,
    .setLoading false]

/-- Whether a handler run navigates to `path`. -/
def navigatesTo (path : String) : List Effect → Bool
  | [] => false
  | .navigate p :: rest => p == path || navigatesTo path rest
  | _ :: rest => navigatesTo path rest

/-- Whether the run of a handler, if it completes, navigates to `path`. -/
def redirects (path : String) : Except JSError (List Effect) → Bool
  | .ok effects => navigatesTo path effects
  | .error _ => false

/-- The error axios rejects with on a response of status 401. -/
def error401 : JSVal :=
  .obj [("message", .str "Request failed with status code 401"),
        ("response", .obj [("status", .num 401),
                           ("data", .obj [("message", .str "Unauthorized")])])]

/-! ## RideRequests: the status processing of a ride request -/

/-- Method `Array.prototype.find` with a callback that may throw: the first element
the callback accepts, `undefined` when there is none. -/
def findM (f : JSVal → Except JSError Bool) : List JSVal → Except JSError JSVal
  | [] => .ok .undefined
  | p :: rest =>
    match f p with
    | .error e => .error e
    | .ok true => .ok p
    | .ok false => findM f rest

/-- The own enumerable properties an object spread `{...v}` copies: the fields of an
object, the indexed elements of an array and the indexed characters of a string;
nothing for the other values. -/
def spreadFields : JSVal → List (String × JSVal)
  | .obj fs => fs
  | .arr items => items.enum.map (fun e => (toString e.1, e.2))
  | .str s => s.data.enum.map (fun e => (toString e.1, JSVal.str (String.singleton e.2)))
  | _ => []

/-- The object literal `{...request, status: status}`. -/
def withStatus (request status : JSVal) : JSVal :=
  .obj (assign "status" status (spreadFields request))

/-- What the callback of `userRequests.map` produces for one request: the processed
request and, when the callback schedules `refreshSingleRideStatus(rideId)` with
`setTimeout`, that ride id. -/
structure Processed where
  request : JSVal
  refresh : Option JSVal

/-- The callback of `request.passengers?.find` in the debug log of `fetchRideRequests`:
`(p.user === user.id) || (p.user?._id === user.id) || (p.user?.id === user.id)`. -/
def RideRequests.loggedPassengerMatch (user p : JSVal) : Except JSError Bool := do
  let pUser ← p.get "user"
  let userId ← user.get "id"
  return strictEq pUser userId || strictEq (pUser.optGet "_id") userId ||
    strictEq (pUser.optGet "id") userId

/-- The arguments of the `console.log('Processing request:', ...)` call of
`fetchRideRequests`; they are evaluated for every request and may throw. -/
def RideRequests.debugLog (user request : JSVal) : Except JSError Unit := do
  let id ← request.get "id"
  let _ ← if truthy id then pure id else request.get "_id"
  let _ ← request.get "status"
  let _ ← request.get "userRequestStatus"
  let passengers ← request.get "passengers"
  match passengers with
  | .undefined => return ()
  | .null => return ()
  | .arr ps =>
    let _ ← findM (RideRequests.loggedPassengerMatch user) ps
    return ()
  | _ => throw .typeError

/-- The callback of `request.passengers.find`:
`passengerId = typeof p.user === 'string' ? p.user : (p.user?.id || p.user?._id)` and
`passengerId === user.id || passengerId === user._id`. -/
def RideRequests.passengerMatch (user p : JSVal) : Except JSError Bool := do
  let pUser ← p.get "user"
  let passengerId := if isString pUser then pUser else jsOr (pUser.optGet "id") (pUser.optGet "_id")
  let userId ← user.get "id"
  if strictEq passengerId userId then return true
  else
    let userId' ← user.get "_id"
    return strictEq passengerId userId'

/-- The callback of `request.ride.passengers.find`:
`p.user === user.id || (p.user && p.user.id === user.id) || (p.user && p.user._id === user.id)`. -/
def RideRequests.ridePassengerMatch (user p : JSVal) : Except JSError Bool := do
  let pUser ← p.get "user"
  let userId ← user.get "id"
  if strictEq pUser userId then return true
  else if truthy pUser then
    let pId ← pUser.get "id"
    if strictEq pId userId then return true
    else
      let pId' ← pUser.get "_id"
      return strictEq pId' userId
  else return false

/-- The status lookup in `request.passengers`: the status of the entry found for the
user when the array exists and the entry carries a truthy status. -/
def RideRequests.passengersStatus (user request : JSVal) : Except JSError (Option JSVal) := do
  let passengers ← request.get "passengers"
  match passengers with
  | .arr ps =>
    let userPassenger ← findM (RideRequests.passengerMatch user) ps
    if truthy userPassenger then
      let status ← userPassenger.get "status"
      if truthy status then return some status else return none
    else return none
  | _ => return none

/-- The status lookup in `request.ride.passengers` (nested structure). -/
def RideRequests.ridePassengersStatus (user request : JSVal) : Except JSError (Option JSVal) := do
  let ride ← request.get "ride"
  if truthy ride then
    let passengers ← ride.get "passengers"
    match passengers with
    | .arr ps =>
      let userPassenger ← findM (RideRequests.ridePassengerMatch user) ps
      if truthy userPassenger then
        let status ← userPassenger.get "status"
        if truthy status then return some status else return none
      else return none
    | _ => return none
  else return none

/-- The ride id for which the callback schedules `refreshSingleRideStatus`:
`request.ride.id || request.ride._id` when `request.ride` and that id are truthy. -/
def RideRequests.scheduledRefresh (request : JSVal) : Except JSError (Option JSVal) := do
  let ride ← request.get "ride"
  if truthy ride then
    let id ← ride.get "id"
    let rideId ← if truthy id then pure id else ride.get "_id"
    if truthy rideId then return some rideId else return none
  else return none

/-- The callback of `userRequests.map` in `refreshRideRequests`: `userRequestStatus`,
then a direct status other than `'pending'`, then `request.passengers`, then
`request.ride.passengers`, then the default `'pending'`. -/
def RideRequests.refreshRideRequests_process (user request : JSVal) :
    Except JSError Processed := do
  let userRequestStatus ← request.get "userRequestStatus"
  if truthy userRequestStatus then
    return { request := withStatus request userRequestStatus, refresh := none }
  let status ← request.get "status"
  if truthy status && !strictEq status (.str "pending") then
    return { request := request, refresh := none }
  match ← RideRequests.passengersStatus user request with
  | some s => return { request := withStatus request s, refresh := none }
  | none =>
    match ← RideRequests.ridePassengersStatus user request with
    | some s => return { request := withStatus request s, refresh := none }
    | none =>
      let rideId ← RideRequests.scheduledRefresh request
      return { request := withStatus request (.str "pending"), refresh := rideId }

/-- The callback of `userRequests.map` in `fetchRideRequests`: the debug log, then the
same branches as in `refreshRideRequests`. -/
def RideRequests.fetchRideRequests_process (user request : JSVal) :
    Except JSError Processed := do
  RideRequests.debugLog user request
  let userRequestStatus ← request.get "userRequestStatus"
  if truthy userRequestStatus then
    return { request := withStatus request userRequestStatus, refresh := none }
  let status ← request.get "status"
  if truthy status && !strictEq status (.str "pending") then
    return { request := request, refresh := none }
  match ← RideRequests.passengersStatus user request with
  | some s => return { request := withStatus request s, refresh := none }
  | none =>
    match ← RideRequests.ridePassengersStatus user request with
    | some s => return { request := withStatus request s, refresh := none }
    | none =>
      let rideId ← RideRequests.scheduledRefresh request
      return { request := withStatus request (.str "pending"), refresh := rideId }

/-- The values `undefined` and `null`, on which a property read throws. -/
def nullish : JSVal → Bool
  | .undefined => true
  | .null => true
  | _ => false

/-- The shape of a `passengers` field in the data model: absent, `null`, or an array
whose entries are values a property can be read from. -/
def passengerListShape : JSVal → Bool
  | .undefined => true
  | .null => true
  | .arr ps => ps.all (fun p => !nullish p)
  | _ => false

/-- The user identifiers a passenger entry carries: its `user` string, or the `id` and
`_id` of its `user` object. -/
def entryIdentifiers (p : JSVal) : List JSVal :=
  if isString (p.optGet "user") then [p.optGet "user"]
  else [(p.optGet "user").optGet "id", (p.optGet "user").optGet "_id"]

/-- A passenger entry is the user's own: one of its identifiers is present and equals
the user's `id` or `_id`. -/
def entryOfUser (user p : JSVal) : Bool :=
  (entryIdentifiers p).any (fun i =>
    truthy i && (strictEq i (user.optGet "id") || strictEq i (user.optGet "_id")))

/-- No entry of the list is the user's own and carries a status. -/
def noStatusForUser (user : JSVal) : JSVal → Bool
  | .arr ps => ps.all (fun p => !(entryOfUser user p && truthy (p.optGet "status")))
  | _ => true

/-- A logged-in user as the auth context holds it: an `id` and no `_id`. -/
def userWithId : JSVal := .obj [("id", .str "u1"), ("name", .str "Asha")]

/-- A request that carries no status of its own and whose only passenger entry
belongs to nobody: its `user` reference is `null`. -/
def requestWithOrphanEntry : JSVal :=
  .obj [("id", .str "r1"),
        ("passengers", .arr [.obj [("user", .null), ("status", .str "confirmed")]])]

/-- A request with an explicit `userRequestStatus` next to other status sources. -/
def requestWithUserStatusFields : List (String × JSVal) :=
  [("id", .str "r2"), ("status", .str "rejected"), ("userRequestStatus", .str "confirmed"),
   ("passengers", .arr [.obj [("user", .str "u1"), ("status", .str "cancelled")]])]

/-! ## List extraction from a response body and `fetchRides` -/

/-- The built-in functions of the host that the modelled code calls and that are not
part of the repository.  Every theorem holds for all of them. -/
structure Builtins where
  /-- The time value of `new Date(v)` as a number: `num t`, or `nan` for an invalid date. -/
  dateValue : JSVal → JSVal
  /-- The conversion `ToNumber` of a string, an array or an object. -/
  coerceNumber : JSVal → JSVal
  /-- The function `parseInt(s)`. -/
  parseInt : String → JSVal
  /-- The function `parseFloat(s)`. -/
  parseFloat : String → JSVal
  /-- The method `s.toLowerCase()`. -/
  toLowerCase : String → String
  /-- The conversion `ToString` of a value that is not a string. -/
  coerceString : JSVal → String
  /-- The string `new Date(v).toISOString()` of a valid date. -/
  isoString : JSVal → String

/-- Method `Array.prototype.filter` with a callback that may throw. -/
def filterM (f : JSVal → Except JSError Bool) : List JSVal → Except JSError (List JSVal)
  | [] => .ok []
  | x :: rest =>
    match f x with
    | .error e => .error e
    | .ok keep =>
      match filterM f rest with
      | .error e => .error e
      | .ok kept => .ok (if keep then x :: kept else kept)

/-- The list of rides `fetchRides` of `Rides` takes from the response:
`response.data.data` when truthy, else `response.data` when it is an array, else `[]`. -/
def Rides.extractRides (response : JSVal) : Except JSError JSVal := do
  let data ← response.get "data"
  if truthy data then
    let inner ← data.get "data"
    if truthy inner then return inner
    else if isArray data then return data
    else return .arr []
  else return .arr []

/-- The list of requests `fetchRideRequests` (and `refreshRideRequests`) of
`RideRequests` takes from the response: `response.data.data` when truthy, else
`response.data` when it is an array, else `[response.data]` when it is truthy, else `[]`. -/
def RideRequests.extractRequests (response : JSVal) : Except JSError JSVal := do
  let data ← response.get "data"
  if truthy data then
    let inner ← data.get "data"
    if truthy inner then return inner
    else if isArray data then return data
    else return .arr [data]
  else return .arr []

/-- The test `typeof v === 'object'`. -/
def isObjectType : JSVal → Bool
  | .null => true
  | .arr _ => true
  | .obj _ => true
  | _ => false

/-- The list of rides `fetchMyRides` of `MyRides` takes from the response:
`response.data.data` when it is an array, else `response.data` when it is an array,
else `[response.data]` when it is a truthy object, else `[]`. -/
def MyRides.extractRides (response : JSVal) : Except JSError JSVal := do
  let data ← response.get "data"
  if truthy data then
    let inner ← data.get "data"
    if truthy inner && isArray inner then return inner
    else if isArray data then return data
    else if isObjectType data then return .arr [data]
    else return .arr []
  else return .arr []

/-- A call `list.filter(...)`, `list.map(...)` or `list.sort(...)` on the extracted
value: it reaches the elements of an array and throws on any other value, which has
no such method. -/
def asArray : JSVal → Except JSError (List JSVal)
  | .arr items => .ok items
  | _ => .error .typeError

/-- The callback `ride => !ride.status || ride.status === 'active'` of `fetchRides`. -/
def Rides.isActiveOrUnset (ride : JSVal) : Except JSError Bool := do
  let status ← ride.get "status"
  return !truthy status || strictEq status (.str "active")

/-- The conversion `ToNumber` of an operand of `-`, `<` or `>`. -/
def toNumber (B : Builtins) : JSVal → JSVal
  | .undefined => .nan
  | .null => .num 0
  | .bool b => .num (if b then 1 else 0)
  | .num n => .num n
  | .nan => .nan
  | v => B.coerceNumber v

/-- The operator `a - b` on two numbers. -/
def numSub : JSVal → JSVal → JSVal
  | .num a, .num b => .num (a - b)
  | _, _ => .nan

/-- The operator `a - b`. -/
def jsSub (B : Builtins) (a b : JSVal) : JSVal := numSub (toNumber B a) (toNumber B b)

/-- How `Array.prototype.sort` reads the result of its comparator: `a` stays before
`b` unless the result is a number greater than zero (`NaN` counts as zero). -/
def staysBefore : JSVal → Bool
  | .num n => n ≤ 0
  | _ => true

/-- Method `Array.prototype.sort(compare)`: the stable sort of the list by the
comparator, which is what every engine computes for a consistent comparator. -/
def jsSort (compare : JSVal → JSVal → JSVal) (items : List JSVal) : List JSVal :=
  items.insertionSort (fun a b => staysBefore (compare a b) = true)

/-- The comparator of the default sort by departure time:
`new Date(a.departureTime || a.time || 0) - new Date(b.departureTime || b.time || 0)`.
Both rides have been read by the filter callback before, so their properties are
read with the total read. -/
def Rides.compareDeparture (B : Builtins) (a b : JSVal) : JSVal :=
  numSub (B.dateValue (jsOr (jsOr (a.optGet "departureTime") (a.optGet "time")) (.num 0)))
    (B.dateValue (jsOr (jsOr (b.optGet "departureTime") (b.optGet "time")) (.num 0)))

/-- The address `enrichRidesWithAddresses` writes into a location: the geocoded address
of its coordinates when the location has a coordinates array with truthy latitude and
longitude, has no address yet and the lookup gives a truthy address. -/
def Rides.enrichedAddress (geocode : JSVal → JSVal → JSVal) (location : JSVal) :
    Option JSVal :=
  if truthy location && truthy (location.optGet "coordinates") &&
      isArray (location.optGet "coordinates") && !truthy (location.optGet "address") then
    match location.optGet "coordinates" with
    | .arr cs =>
      let lng := cs.getD 0 .undefined
      let lat := cs.getD 1 .undefined
      if truthy lat && truthy lng then
        let address := geocode lat lng
        if truthy address then some address else none
      else none
    | _ => none
  else none

/-- The assignment `ride[key].address = address` of `enrichRidesWithAddresses` on one
location of a ride. -/
def Rides.enrichLocation (geocode : JSVal → JSVal → JSVal) (key : String) (ride : JSVal) :
    JSVal :=
  match ride with
  | .obj fs =>
    match Rides.enrichedAddress geocode (lookup key fs) with
    | some address =>
      .obj (assign key (.obj (assign "address" address (spreadFields (lookup key fs)))) fs)
    | none => ride
  | _ => ride

/-- What `enrichRidesWithAddresses` does to one ride: nothing without an API key,
else the pickup and the dropoff location get their geocoded address. -/
def Rides.enrichRide (apiKey : JSVal) (geocode : JSVal → JSVal → JSVal) (ride : JSVal) :
    JSVal :=
  if !truthy apiKey then ride
  else Rides.enrichLocation geocode "dropoffLocation"
    (Rides.enrichLocation geocode "pickupLocation" ride)

/-- The `try` block of `fetchRides` after the response has arrived: the list passed to
`setRides`.  `geocode lat lng` is the result of `fetchAddressFromCoordinates(lat, lng)`. -/
def Rides.fetchRidesLoaded (B : Builtins) (apiKey : JSVal) (geocode : JSVal → JSVal → JSVal)
    (response : JSVal) : Except JSError (List JSVal) := do
  let allRides ← Rides.extractRides response
  let items ← asArray allRides
  let active ← filterM Rides.isActiveOrUnset items
  let sorted := jsSort (Rides.compareDeparture B) active
  return sorted.map (Rides.enrichRide apiKey geocode)

/-- The `try` block of `fetchRideRequests` after the response has arrived: the list
passed to `setRequests` before it is sorted by date. -/
def RideRequests.fetchRideRequestsLoaded (user response : JSVal) :
    Except JSError (List Processed) := do
  let userRequests ← RideRequests.extractRequests response
  let items ← asArray userRequests
  items.mapM (RideRequests.fetchRideRequests_process user)

/-- A response whose body wraps its payload in an object: `{ data: { rides: [] } }`. -/
def responseWithObjectPayload : JSVal :=
  .obj [("status", .num 200),
        ("data", .obj [("success", .bool true), ("data", .obj [("rides", .arr [])])])]

/-- The status of a ride is absent (also `null`), empty or `'active'`. -/
def statusUnsetOrActive (ride : JSVal) : Bool :=
  match ride.optGet "status" with
  | .undefined => true
  | .null => true
  | .str s => s == "" || s == "active"
  | _ => false

/-- The status field of a ride is a string when it is present. -/
def statusIsText (ride : JSVal) : Bool :=
  match ride.optGet "status" with
  | .undefined => true
  | .null => true
  | .str _ => true
  | _ => false

/-- Value of a string of decimal digits. -/
def digitsValue (cs : List Char) : Nat :=
  cs.foldl (fun n c => 10 * n + (c.toNat - 48)) 0

/-- A decimal reading of `parseInt` and `parseFloat` on integer literals: an optional
minus sign and the leading digits; `NaN` when there is no digit. -/
def decimalValue (s : String) : JSVal :=
  match s.data with
  | '-' :: cs =>
    if (cs.takeWhile Char.isDigit).isEmpty then .nan
    else .num (-(digitsValue (cs.takeWhile Char.isDigit) : Int))
  | cs =>
    if (cs.takeWhile Char.isDigit).isEmpty then .nan
    else .num (digitsValue (cs.takeWhile Char.isDigit))

/-- Lower-casing of the ASCII letters of a string. -/
def asciiLower (s : String) : String := String.mk (s.data.map Char.toLower)

/-- An executable instance of the built-ins on the fragment the examples use. -/
def sampleBuiltins : Builtins where
  dateValue := fun v =>
    match v with
    | .num n => .num n
    | .str s => decimalValue s
    | _ => .nan
  coerceNumber := fun v =>
    match v with
    | .str s => if s = "" then .num 0 else decimalValue s
    | _ => .nan
  parseInt := decimalValue
  parseFloat := decimalValue
  toLowerCase := asciiLower
  coerceString := fun v =>
    match v with
    | .str s => s
    | .num n => toString n
    | _ => ""
  isoString := fun _ => "2024-03-30T10:00:00.000Z"


/-- A response of `getAllRides` with an active ride, a completed ride and a ride
without a status. -/
def sampleRidesResponse : JSVal :=
  .obj [("data", .obj [("data", .arr [
    .obj [("id", .str "r1"), ("status", .str "active"), ("time", .num 20)],
    .obj [("id", .str "r2"), ("status", .str "completed"), ("time", .num 5)],
    .obj [("id", .str "r3"), ("time", .num 10)]])])]

/-! ## Rides: the filters of the ride list -/

/-- The state `filters` of the `Rides` page; every field is the string value of an
input. -/
structure Filters where
  seats : String
  priceMin : String
  priceMax : String
  searchQuery : String
  sortBy : String
  sortDirection : String
  deriving DecidableEq, Repr, Inhabited

/-- The filters with nothing set. -/
def Filters.none : Filters :=
  { seats := "", priceMin := "", priceMax := "", searchQuery := "",
    sortBy := "departureTime", sortDirection := "asc" }

/-- The comparison `a < b` of two numbers; false when one of them is `NaN`. -/
def numLt : JSVal → JSVal → Bool
  | .num a, .num b => a < b
  | _, _ => false

/-- The operator `a < b` where `b` is the number a filter value was parsed to: both
operands are converted with `ToNumber`. -/
def jsLt (B : Builtins) (a b : JSVal) : Bool := numLt (toNumber B a) (toNumber B b)

/-- The operator `a > b` where `b` is the number a filter value was parsed to. -/
def jsGt (B : Builtins) (a b : JSVal) : Bool := numLt (toNumber B b) (toNumber B a)

/-- Function `getLocationString` of `Rides`. -/
def Rides.getLocationString (location : JSVal) : JSVal :=
  if !truthy location then .str "N/A"
  else if truthy (location.optGet "address") then location.optGet "address"
  else if truthy (location.optGet "name") then location.optGet "name"
  else if truthy (location.optGet "coordinates") && isArray (location.optGet "coordinates") then
    .str "Location coordinates available"
  else if isString location then location
  else .str "Location"

/-- The call `v.toLowerCase()`: only a string has the method. -/
def lowerCase (B : Builtins) : JSVal → Except JSError String
  | .str s => .ok (B.toLowerCase s)
  | _ => .error .typeError

/-- The conversion `ToString` of an element in `Array.prototype.join`. -/
def toStr (B : Builtins) : JSVal → String
  | .str s => s
  | v => B.coerceString v

/-- The method `s.includes(q)`: `q` occurs in `s` as a substring. -/
def includes (s q : String) : Bool := decide (q.data <:+: s.data)

/-- The driver name the search looks into: empty unless `ride.creator` is truthy and not
a string, else the truthy ones of `firstName`, `lastName`, `name` and `username`
joined by a space, in lower case. -/
def Rides.searchDriverName (B : Builtins) (creator : JSVal) : String :=
  if truthy creator && !isString creator then
    B.toLowerCase (" ".intercalate
      (([creator.optGet "firstName", creator.optGet "lastName", creator.optGet "name",
         creator.optGet "username"].filter truthy).map (toStr B)))
  else ""

/-- The block `if (filters.searchQuery) { ... }` of the filter callback for a truthy
query: whether one of the four fields contains the query.  `getLocationString` is the
binding of the `const` of that name when the callback runs: `none` while its
declaration has not been evaluated yet, and a call of it then throws a
`ReferenceError` before the argument is evaluated. -/
def Rides.searchMatches (B : Builtins) (getLocationString : Option (JSVal → JSVal))
    (searchQuery : String) (ride : JSVal) : Except JSError Bool := do
  let query := B.toLowerCase searchQuery
  let locate ← match getLocationString with
    | some f => pure f
    | none => throw JSError.referenceError
  let pickup ← lowerCase B (locate (← ride.get "pickupLocation"))
  let dropoff ← lowerCase B (locate (← ride.get "dropoffLocation"))
  let carModel ← lowerCase B (jsOr (← ride.get "carModel") (.str ""))
  let driverName := Rides.searchDriverName B (← ride.get "creator")
  return includes pickup query || includes dropoff query || includes carModel query ||
    includes driverName query

/-- The callback of `rides.filter` that defines `filteredRides`.  The component runs
it while it evaluates the declaration of `filteredRides`, which stands before the
declaration `const getLocationString`; the binding of `getLocationString` is
therefore not initialised when the search block calls it. -/
def Rides.passesFilters (B : Builtins) (filters : Filters) (ride : JSVal) :
    Except JSError Bool := do
  if truthy (.str filters.seats) then
    let availableSeats ← ride.get "availableSeats"
    if jsLt B availableSeats (B.parseInt filters.seats) then return false
    let seatsAvailable ← ride.get "seatsAvailable"
    if jsLt B seatsAvailable (B.parseInt filters.seats) then return false
  if truthy (.str filters.priceMin) then
    let price ← ride.get "price"
    if jsLt B price (B.parseFloat filters.priceMin) then return false
  if truthy (.str filters.priceMax) then
    let price ← ride.get "price"
    if jsGt B price (B.parseFloat filters.priceMax) then return false
  if truthy (.str filters.searchQuery) then
    let found ← Rides.searchMatches B none filters.searchQuery ride
    if !found then return false
  return true

/-- The operator `a * b` on two numbers. -/
def numMul : JSVal → JSVal → JSVal
  | .num a, .num b => .num (a * b)
  | _, _ => .nan

/-- The seat count a ride card displays and the sort uses:
`ride.availableSeats || ride.seatsAvailable || 0`. -/
def Rides.displayedSeats (ride : JSVal) : JSVal :=
  jsOr (jsOr (ride.optGet "availableSeats") (ride.optGet "seatsAvailable")) (.num 0)

/-- The price the sort uses and the card displays: `ride.price || 0`. -/
def Rides.sortPrice (ride : JSVal) : JSVal :=
  jsOr (ride.optGet "price") (.num 0)

/-- The comparator of the sort that defines `filteredRides`:
`new Date(a.departureTime || a.time || 0) - new Date(b.departureTime || b.time || 0)`,
`(a.price || 0) - (b.price || 0)` or the difference of
`availableSeats || seatsAvailable || 0`, times the direction; `0` for another sort key.
Reading a property of a ride that is `null` or `undefined` throws. -/
def Rides.compareRides (B : Builtins) (filters : Filters) (a b : JSVal) :
    Except JSError JSVal := do
  let sortKey := jsOr (.str filters.sortBy) (.str "departureTime")
  let direction : JSVal := if filters.sortDirection = "desc" then .num (-1) else .num 1
  if strictEq sortKey (.str "departureTime") then
    let departureA ← a.get "departureTime"
    let timeA ← if truthy departureA then pure departureA else a.get "time"
    let departureB ← b.get "departureTime"
    let timeB ← if truthy departureB then pure departureB else b.get "time"
    return numMul (numSub (B.dateValue (jsOr timeA (.num 0)))
      (B.dateValue (jsOr timeB (.num 0)))) direction
  else if strictEq sortKey (.str "price") then
    let priceA ← a.get "price"
    let priceB ← b.get "price"
    return numMul (jsSub B (jsOr priceA (.num 0)) (jsOr priceB (.num 0))) direction
  else if strictEq sortKey (.str "seats") then
    let availableA ← a.get "availableSeats"
    let seatsA ← if truthy availableA then pure availableA else a.get "seatsAvailable"
    let availableB ← b.get "availableSeats"
    let seatsB ← if truthy availableB then pure availableB else b.get "seatsAvailable"
    return numMul (jsSub B (jsOr seatsA (.num 0)) (jsOr seatsB (.num 0))) direction
  else return .num 0

/-- The insertion step of the sort with a comparator that may throw: `a` goes before
the first element it stays before. -/
def orderedInsertM (compare : JSVal → JSVal → Except JSError JSVal) (a : JSVal) :
    List JSVal → Except JSError (List JSVal)
  | [] => .ok [a]
  | b :: rest =>
    match compare a b with
    | .error e => .error e
    | .ok c =>
      if staysBefore c then .ok (a :: b :: rest)
      else
        match orderedInsertM compare a rest with
        | .error e => .error e
        | .ok inserted => .ok (b :: inserted)

/-- Method `Array.prototype.sort(compare)` with a comparator that may throw: the stable
sort of the list by the comparator; an exception of the comparator ends the sort.  A
list of fewer than two elements is returned without a call of the comparator. -/
def jsSortM (compare : JSVal → JSVal → Except JSError JSVal) :
    List JSVal → Except JSError (List JSVal)
  | [] => .ok []
  | a :: rest =>
    match jsSortM compare rest with
    | .error e => .error e
    | .ok sorted => orderedInsertM compare a sorted

/-- The list `filteredRides` of the `Rides` page: the rides that pass the filters,
sorted. -/
def Rides.filteredRides (B : Builtins) (filters : Filters) (rides : List JSVal) :
    Except JSError (List JSVal) := do
  let kept ← filterM (Rides.passesFilters B filters) rides
  jsSortM (Rides.compareRides B filters) kept

/-- A ride that carries no seat count at all. -/
def rideWithoutSeats : JSVal := .obj [("id", .str "r1"), ("price", .num 50)]

/-- A ride that carries both seat fields, the first of them zero. -/
def rideWithBothSeatFields : JSVal :=
  .obj [("id", .str "r2"), ("availableSeats", .num 0), ("seatsAvailable", .num 4)]

/-- A ride that carries no price. -/
def rideWithoutPrice : JSVal := .obj [("id", .str "r3"), ("availableSeats", .num 2)]


/-- A ride with an address, a coordinates-only location, a car model and a driver. -/
def sampleSearchRide : List (String × JSVal) :=
  [("id", .str "r1"),
   ("pickupLocation", .obj [("address", .str "Connaught Place, Delhi")]),
   ("dropoffLocation", .obj [("coordinates", .arr [.num 77, .num 28])]),
   ("carModel", .str "Swift"),
   ("creator", .obj [("firstName", .str "Ravi"), ("lastName", .str "Kumar")])]

/-! ## Rides: the sort of the ride list -/

/-- The order `a ≤ b` of two numbers; false when one of them is not a number. -/
def numLe : JSVal → JSVal → Bool
  | .num a, .num b => a ≤ b
  | _, _ => false

/-- The integer a numeric sort key stands for (zero for a value that is no number). -/
def numKey : JSVal → Int
  | .num n => n
  | _ => 0

/-- Rides with prices and seat counts in no particular order. -/
def sampleSortRides : List JSVal :=
  [.obj [("id", .str "a"), ("price", .num 30), ("availableSeats", .num 2)],
   .obj [("id", .str "b"), ("seatsAvailable", .num 4)],
   .obj [("id", .str "c"), ("price", .num 10), ("availableSeats", .num 1)]]

/-! ## MyRides and RideRequests: reverse geocoding with the location cache -/

/-- The conversion of an element in `Array.prototype.join`: `undefined` and `null` give
the empty string. -/
def joinElement (B : Builtins) : JSVal → String
  | .undefined => ""
  | .null => ""
  | v => toStr B v

/-- The method `items.join(sep)`. -/
def jsJoin (B : Builtins) (sep : String) (items : List JSVal) : String :=
  sep.intercalate (items.map (joinElement B))

/-- The property `v.length` of a truthy value. -/
def jsLength : JSVal → JSVal
  | .arr items => .num items.length
  | .str s => .num s.length
  | .obj fs => lookup "length" fs
  | _ => .undefined

/-- The element `v[0]` of a truthy value. -/
def firstElement : JSVal → JSVal
  | .arr items => items.headD .undefined
  | .str s => match s.data with
    | [] => .undefined
    | c :: _ => .str (String.singleton c)
  | .obj fs => lookup "0" fs
  | _ => .undefined

/-- What a call of `getLocationNameFromCoordinates` does: the value it resolves to,
whether it issued the geocoding request, and the location cache after it. -/
structure Geocoded where
  result : JSVal
  requested : Bool
  cache : List (String × JSVal)

/-- The address read from the body `data` of the geocoding response:
`data.results[0].formatted_address` when `data.status === 'OK'` and `data.results` is
truthy with a length above zero, nothing otherwise. -/
def formattedAddress (B : Builtins) (data : JSVal) : Except JSError (Option JSVal) := do
  let status ← data.get "status"
  if strictEq status (.str "OK") then
    let results ← data.get "results"
    if truthy results && jsGt B (jsLength results) (.num 0) then
      let address ← (firstElement results).get "formatted_address"
      return some address
    else return none
  else return none

/-- Function `getLocationNameFromCoordinates` of `MyRides`.  `apiKey` is
`GOOGLE_MAPS_API_KEY`, `locationCache` the cache state, and `outcome` how the request
settles when it is issued: the parsed body, or the error `fetch` or `response.json()`
rejects with. -/
def MyRides.getLocationNameFromCoordinates (B : Builtins) (apiKey : JSVal)
    (locationCache : List (String × JSVal)) (outcome : Except JSVal JSVal)
    (coordinates : JSVal) : Geocoded :=
  match coordinates with
  | .arr items =>
    if items.length ≠ 2 then { result := .null, requested := false, cache := locationCache }
    else
      let cacheKey := jsJoin B "," items
      if truthy (lookup cacheKey locationCache) then
        { result := lookup cacheKey locationCache, requested := false, cache := locationCache }
      else if !truthy apiKey then
        { result := .null, requested := false, cache := locationCache }
      else
        match outcome with
        | .error _ => { result := .null, requested := true, cache := locationCache }
        | .ok data =>
          match formattedAddress B data with
          | .ok (some address) =>
            { result := address, requested := true,
              cache := assign cacheKey address locationCache }
          | .ok none => { result := .null, requested := true, cache := locationCache }
          | .error _ => { result := .null, requested := true, cache := locationCache }
  | _ => { result := .null, requested := false, cache := locationCache }

/-- Function `getLocationNameFromCoordinates` of `RideRequests`; its text is the text of
the function of `MyRides`. -/
def RideRequests.getLocationNameFromCoordinates (B : Builtins) (apiKey : JSVal)
    (locationCache : List (String × JSVal)) (outcome : Except JSVal JSVal)
    (coordinates : JSVal) : Geocoded :=
  match coordinates with
  | .arr items =>
    if items.length ≠ 2 then { result := .null, requested := false, cache := locationCache }
    else
      let cacheKey := jsJoin B "," items
      if truthy (lookup cacheKey locationCache) then
        { result := lookup cacheKey locationCache, requested := false, cache := locationCache }
      else if !truthy apiKey then
        { result := .null, requested := false, cache := locationCache }
      else
        match outcome with
        | .error _ => { result := .null, requested := true, cache := locationCache }
        | .ok data =>
          match formattedAddress B data with
          | .ok (some address) =>
            { result := address, requested := true,
              cache := assign cacheKey address locationCache }
          | .ok none => { result := .null, requested := true, cache := locationCache }
          | .error _ => { result := .null, requested := true, cache := locationCache }
  | _ => { result := .null, requested := false, cache := locationCache }

/-- A location cache that already holds the address of the coordinates `77,28`. -/
def sampleLocationCache : List (String × JSVal) :=
  [("72,19", .str "Mumbai, Maharashtra"), ("77,28", .str "New Delhi, Delhi")]

/-- The body of a geocoding response with one result. -/
def sampleGeocodingBody : JSVal :=
  .obj [("status", .str "OK"),
        ("results", .arr [.obj [("formatted_address", .str "Pune, Maharashtra")]])]



/-! ## RideDetail: who may request and who may rate a ride -/

/-- Function `isCurrentUserDriver` of `RideDetail`.  After the guard both `user` and
`ride` are truthy, so their properties are read with the total read. -/
def RideDetail.isCurrentUserDriver (user ride : JSVal) : Bool :=
  if !truthy user || !truthy ride then false
  else
    let driverId :=
      if isString (ride.optGet "creator") then ride.optGet "creator"
      else jsOr ((ride.optGet "creator").optGet "id") ((ride.optGet "creator").optGet "_id")
    strictEq driverId (user.optGet "id")

/-- Function `isRideCompleted` of `RideDetail`: `ride && ride.status === 'completed'`. -/
def RideDetail.isRideCompleted (ride : JSVal) : JSVal :=
  if truthy ride then .bool (strictEq (ride.optGet "status") (.str "completed")) else ride

/-- Function `isRideCancelled` of `RideDetail`: `ride && ride.status === 'cancelled'`. -/
def RideDetail.isRideCancelled (ride : JSVal) : JSVal :=
  if truthy ride then .bool (strictEq (ride.optGet "status") (.str "cancelled")) else ride

/-- Function `canRequestRide` of `RideDetail`; `requestStatus` is the state of that
name. -/
def RideDetail.canRequestRide (B : Builtins) (user ride requestStatus : JSVal) : JSVal :=
  if !truthy user then .bool false
  else if RideDetail.isCurrentUserDriver user ride then .bool false
  else if truthy requestStatus then .bool false
  else if truthy (RideDetail.isRideCancelled ride) then .bool false
  else if truthy (RideDetail.isRideCompleted ride) then .bool false
  else if truthy ride then
    .bool (jsGt B (ride.optGet "availableSeats") (.num 0) ||
      jsGt B (ride.optGet "seatsAvailable") (.num 0))
  else ride

/-- Function `canRateRide` of `RideDetail`. -/
def RideDetail.canRateRide (user ride requestStatus : JSVal) : JSVal :=
  if !truthy user then .bool false
  else if RideDetail.isCurrentUserDriver user ride then .bool false
  else if truthy (RideDetail.isRideCompleted ride) then
    .bool (strictEq requestStatus (.str "confirmed"))
  else RideDetail.isRideCompleted ride

/-- The seat count the ride page displays: `ride.availableSeats || ride.seatsAvailable || 0`. -/
def RideDetail.displayedSeats (ride : JSVal) : JSVal :=
  jsOr (jsOr (ride.optGet "availableSeats") (ride.optGet "seatsAvailable")) (.num 0)

/-- A seat count of the data model: absent, or an integer that is not negative. -/
def isSeatCount : JSVal → Bool
  | .undefined => true
  | .null => true
  | .num n => 0 ≤ n
  | _ => false

/-- A ride of another driver with two seats left. -/
def sampleOpenRide : JSVal :=
  .obj [("id", .str "r7"), ("creator", .obj [("_id", .str "u9")]), ("status", .str "active"),
        ("seatsAvailable", .num 2)]

/-! ## RideCard.handleRequestRide -/

/-- Function `handleRequestRide` of `RideCard`.  `isAuthenticated` and `user` come from
the auth context, `ride` and `onRequest` are the props of the card (`hasOnRequest` tells
whether the callback is given), and `outcome` is how `rides.requestRide` settles:
`none` when it resolves, `some error` when it rejects. -/
def RideCard.handleRequestRide (isAuthenticated user ride : JSVal) (hasOnRequest : Bool)
    (outcome : Option JSVal) : Except JSError (List Effect) := do
  if !truthy isAuthenticated then
    return [.toastError (.str "Please login to request a ride"), .navigate "/login"]
  let creator ← ride.get "creator"
  let creatorId := jsOr (creator.optGet "id") creator
  if truthy user && strictEq (user.optGet "id") creatorId then
    return [.toastError (.str "You can't request your own ride!")]
  let id ← ride.get "id"
  let rideId ← if truthy id then pure id else ride.get "_id"
  match outcome with
  | none =>
    return [.setLoading true, .ridesRequestRide rideId,
      .toastSuccess "Ride requested successfully!"] ++
      (if hasOnRequest then [Effect.onRequest] else []) ++ [.setLoading false]
  | some error =>
    return [.setLoading true, .ridesRequestRide rideId,
      .toastError (jsOr (((error.optGet "response").optGet "data").optGet "message")
        (.str "Failed to request ride")), .setLoading false]

/-- Whether a handler run calls `rides.requestRide`. -/
def callsRequestRide : List Effect → Bool
  | [] => false
  | .ridesRequestRide _ :: _ => true
  | _ :: rest => callsRequestRide rest

/-- A ride of the user `u1` whose populated creator carries `_id` and no `id`. -/
def rideOfUserByUnderscoreId : JSVal :=
  .obj [("_id", .str "r1"),
        ("creator", .obj [("_id", .str "u1"), ("firstName", .str "Asha")]),
        ("seatsAvailable", .num 3)]

/-! ## EditRide.fetchRideDetails -/

/-- The initial value of the form state `formData` of `EditRide`. -/
def EditRide.initialFormData : JSVal :=
  .obj [("pickupLocation", .str ""), ("dropoffLocation", .str ""), ("departureTime", .str ""),
        ("price", .str ""), ("availableSeats", .num 1), ("carModel", .str ""),
        ("carNumber", .str ""),
        ("preferences", .obj [("smoking", .bool false), ("pets", .bool false),
          ("music", .bool false), ("gender", .str "any")]),
        ("additionalNotes", .str "")]

/-- Function `formatDateForInput` of `EditRide`. -/
def EditRide.formatDateForInput (B : Builtins) (dateString : JSVal) : JSVal :=
  if !truthy dateString then .str ""
  else
    match B.dateValue dateString with
    | .num _ => .str (String.mk ((B.isoString dateString).data.take 16))
    | _ => .str ""

/-- The form value of a location:
`typeof location === 'string' ? location : location?.coordinates?.join(',') || ''`. -/
def EditRide.locationField (B : Builtins) (location : JSVal) : Except JSError JSVal :=
  if isString location then .ok location
  else
    match location.optGet "coordinates" with
    | .undefined => .ok (.str "")
    | .null => .ok (.str "")
    | .arr items => .ok (jsOr (.str (jsJoin B "," items)) (.str ""))
    | _ => .error .typeError

/-- The object `fetchRideDetails` passes to `setFormData`. -/
def EditRide.rideFormData (B : Builtins) (rideData : JSVal) : Except JSError JSVal := do
  let pickupLocation ← EditRide.locationField B (← rideData.get "pickupLocation")
  let dropoffLocation ← EditRide.locationField B (← rideData.get "dropoffLocation")
  let departureTime := jsOr (EditRide.formatDateForInput B
    (jsOr (← rideData.get "departureTime") (← rideData.get "time"))) (.str "")
  let price := jsOr (← rideData.get "price") (.str "")
  let availableSeats :=
    jsOr (jsOr (← rideData.get "availableSeats") (← rideData.get "seatsAvailable")) (.num 1)
  let carModel := jsOr (← rideData.get "carModel") (.str "")
  let carNumber := jsOr (← rideData.get "carNumber") (.str "")
  let preferences ← rideData.get "preferences"
  let additionalNotes := jsOr (← rideData.get "additionalNotes") (.str "")
  return .obj [("pickupLocation", pickupLocation), ("dropoffLocation", dropoffLocation),
    ("departureTime", departureTime), ("price", price), ("availableSeats", availableSeats),
    ("carModel", carModel), ("carNumber", carNumber),
    ("preferences", .obj [
      ("smoking", jsOr (preferences.optGet "smoking") (.bool false)),
      ("pets", jsOr (preferences.optGet "pets") (.bool false)),
      ("music", jsOr (preferences.optGet "music") (.bool false)),
      ("gender", jsOr (preferences.optGet "gender") (.str "any"))]),
    ("additionalNotes", additionalNotes)]

/-- The ride `fetchRideDetails` takes from the response: `response.data.data || response.data`. -/
def EditRide.loadedRide (response : JSVal) : Except JSError JSVal := do
  let data ← response.get "data"
  let inner ← data.get "data"
  return jsOr inner data

/-- The ownership test of `fetchRideDetails`: the creator id of the ride (the creator
string, else `creator.id`, else `creator._id`) is strictly equal to `user.id`. -/
def EditRide.isOwner (user rideData : JSVal) : Except JSError Bool := do
  let creator ← rideData.get "creator"
  let rideCreatorId :=
    if isString creator then creator
    else jsOr (creator.optGet "id") (creator.optGet "_id")
  let userId ← user.get "id"
  return strictEq rideCreatorId userId

/-- The `try` block of `fetchRideDetails` of `EditRide` after the response has arrived:
the effects it performs and the error it throws, if any. -/
def EditRide.fetchRideDetailsTry (B : Builtins) (user response : JSVal) :
    List Effect × Option JSError :=
  match EditRide.loadedRide response with
  | .error e => ([], some e)
  | .ok rideData =>
    match EditRide.isOwner user rideData with
    | .error e => ([.setState "ride" rideData], some e)
    | .ok false =>
      ([.setState "ride" rideData,
        .setError (.str "You are not authorized to edit this ride")], none)
    | .ok true =>
      match EditRide.rideFormData B rideData with
      | .error e => ([.setState "ride" rideData], some e)
      | .ok formData => ([.setState "ride" rideData, .setState "formData" formData], none)

/-- Handler `fetchRideDetails` of `EditRide` when `ridesApi.getRideById(id)` resolves with
`response`: the `try` block, the `catch` block when the `try` block throws (the thrown
`TypeError` has no `response`, so the message is the default one), and `finally`. -/
def EditRide.fetchRideDetailsResolved (B : Builtins) (user response : JSVal) : List Effect :=
  [.setLoading true, .setError .null] ++ (EditRide.fetchRideDetailsTry B user response).1 ++
  (match (EditRide.fetchRideDetailsTry B user response).2 with
   | none => []
   | some _ => [.setError (.str "Failed to load ride details."),
                .toastError (.str "Failed to load ride details.")]) ++
  [.setLoading false]

/-- The state of the `EditRide` page that `fetchRideDetails` writes. -/
structure EditRide.State where
  ride : JSVal
  loading : JSVal
  error : JSVal
  formData : JSVal

/-- The initial state of the `EditRide` page. -/
def EditRide.State.initial : EditRide.State :=
  { ride := .null, loading := .bool true, error := .null,
    formData := EditRide.initialFormData }

/-- The state after an effect of `fetchRideDetails`. -/
def EditRide.State.apply (s : EditRide.State) : Effect → EditRide.State
  | .setLoading b => { s with loading := .bool b }
  | .setError message => { s with error := message }
  | .setState name value =>
    if name = "ride" then { s with ride := value }
    else if name = "formData" then { s with formData := value }
    else s
  | _ => s

/-- What the `EditRide` page renders: the loading notice, the error view, or the form. -/
inductive EditRide.View where
  | loading
  | error (message : JSVal)
  | form

/-- The branch of the render of `EditRide`: `if (loading) ...; if (error) ...; <form>`. -/
def EditRide.view (s : EditRide.State) : EditRide.View :=
  if truthy s.loading then .loading
  else if truthy s.error then .error s.error
  else .form

/-- Whether a handler run calls `setFormData`. -/
def setsFormData : List Effect → Bool
  | [] => false
  | .setState name _ :: rest => name == "formData" || setsFormData rest
  | _ :: rest => setsFormData rest

/-- A response of `getRideById` with a ride of the user `u9`. -/
def sampleRideResponse : JSVal :=
  .obj [("data", .obj [("data", sampleOpenRide)])]

/-! ## MyRides and RideRequests: getLocationString -/

/-- Function `getLocationString` of `MyRides`.  After the first guard `location` is
truthy, so its properties are read with the total read. -/
def MyRides.getLocationString (location : JSVal) : JSVal :=
  if !truthy location then .str "N/A"
  else if truthy (location.optGet "cachedName") then location.optGet "cachedName"
  else if truthy (location.optGet "address") then location.optGet "address"
  else if truthy (location.optGet "name") then location.optGet "name"
  else if truthy (location.optGet "coordinates") && isArray (location.optGet "coordinates") then
    .str "Loading location..."
  else if isString location then location
  else .str "N/A"

/-- Function `getLocationString` of `RideRequests`; its text is the text of the function
of `MyRides`. -/
def RideRequests.getLocationString (location : JSVal) : JSVal :=
  if !truthy location then .str "N/A"
  else if truthy (location.optGet "cachedName") then location.optGet "cachedName"
  else if truthy (location.optGet "address") then location.optGet "address"
  else if truthy (location.optGet "name") then location.optGet "name"
  else if truthy (location.optGet "coordinates") && isArray (location.optGet "coordinates") then
    .str "Loading location..."
  else if isString location then location
  else .str "N/A"

/-- A field of a location is text when it is present: a string, or absent. -/
def isTextField : JSVal → Bool
  | .undefined => true
  | .null => true
  | .str _ => true
  | _ => false

/-- A value is a string that is not empty. -/
def isNonEmptyString : JSVal → Bool
  | .str s => s != ""
  | _ => false

/-- A location that carries an address, a name and coordinates. -/
def sampleLocation : JSVal :=
  .obj [("coordinates", .arr [.num 77, .num 28]), ("name", .str "Office"),
        ("address", .str "Connaught Place, Delhi"), ("cachedName", .str "")]

/-! ## RideRequests: sample requests with passenger entries of nobody -/

/-- A passenger entry of nobody: its `user` reference is `null`. -/
def anonymousEntry : JSVal :=
  .obj [("user", .null), ("status", .str "rejected")]

/-- A pending request whose passengers are an entry of nobody followed by the entry of
the user `u1`. -/
def requestWithAnonymousEntry : JSVal :=
  .obj [("id", .str "r5"), ("status", .str "pending"),
        ("passengers", .arr [anonymousEntry,
          .obj [("user", .str "u1"), ("status", .str "confirmed")]])]

/-- A logged-in user that carries an `_id` and no `id`. -/
def userWithUnderscoreId : JSVal := .obj [("_id", .str "u1"), ("name", .str "Asha")]

/-- A request whose ride lists an entry without a `user` followed by the entry of the
user `u1`. -/
def requestWithNestedAnonymousEntry : JSVal :=
  .obj [("id", .str "r6"),
        ("ride", .obj [("_id", .str "x1"),
          ("passengers", .arr [.obj [("status", .str "cancelled")],
            .obj [("user", .obj [("_id", .str "u1")]), ("status", .str "confirmed")]])])]

/-- A pending request of the user `u1` with the user's entry in `ride.passengers`. -/
def requestWithRideEntryFields : List (String × JSVal) :=
  [("id", .str "r8"), ("status", .str "pending"),
   ("passengers", .arr [.obj [("user", .str "u7"), ("status", .str "confirmed")]]),
   ("ride", .obj [("id", .str "x2"),
     ("passengers", .arr [.obj [("user", .obj [("id", .str "u1")]),
       ("status", .str "rejected")]])])]

/-! ## RideRequests: sample requests on which the debug log of the initial load throws -/

/-- A request with an explicit `userRequestStatus` whose `passengers` field is an object
keyed by user id, not an array. -/
def requestWithStatusAndPassengerMap : JSVal :=
  .obj [("id", .str "r2"), ("status", .str "rejected"), ("userRequestStatus", .str "confirmed"),
        ("passengers", .obj [("u1", .str "cancelled")])]

/-- A request with an explicit `userRequestStatus` whose `passengers` array holds a
`null` entry. -/
def requestWithStatusAndNullEntry : JSVal :=
  .obj [("id", .str "r3"), ("status", .str "rejected"), ("userRequestStatus", .str "confirmed"),
        ("passengers", .arr [.null])]

/-- A request without any status whose `passengers` field is an object keyed by user
id, not an array. -/
def requestWithPassengerMap : JSVal :=
  .obj [("id", .str "r10"), ("passengers", .obj [("u1", .str "confirmed")])]

/-! ## RideDetail and EditRide: the creator of a ride -/

/-- The creator id of a ride as `RideDetail` and `EditRide` read it: the `creator`
string, else `creator.id`, else `creator._id`. -/
def rideCreatorId (ride : JSVal) : JSVal :=
  if isString (ride.optGet "creator") then ride.optGet "creator"
  else jsOr ((ride.optGet "creator").optGet "id") ((ride.optGet "creator").optGet "_id")

/-- The user is the creator (the driver, the owner) of the ride: the ride carries a
creator id and that id is the `id` of the user. -/
def isCreatorOf (user ride : JSVal) : Bool :=
  truthy (rideCreatorId ride) && strictEq (rideCreatorId ride) (user.optGet "id")

/-- An active ride with two seats left whose creator carries a name and no id. -/
def rideOfUnidentifiedCreator : JSVal :=
  .obj [("id", .str "r7"), ("creator", .obj [("firstName", .str "Ravi")]),
        ("status", .str "active"), ("seatsAvailable", .num 2)]

/-- A completed ride whose creator carries a name and no id. -/
def completedRideOfUnidentifiedCreator : JSVal :=
  .obj [("id", .str "r7"), ("creator", .obj [("firstName", .str "Ravi")]),
        ("status", .str "completed"), ("seatsAvailable", .num 2)]

/-- A response of `getRideById` with a ride whose creator carries a name and no id. -/
def responseWithUnidentifiedCreator : JSVal :=
  .obj [("data", .obj [("data", .obj [("id", .str "r7"),
    ("creator", .obj [("firstName", .str "Ravi")]), ("seatsAvailable", .num 2)])])]

/-! # Theorems -/

/-! ## CreateRide.handleSubmit -/

/-- A coordinate of the form is truthy exactly when it is a non-empty string. -/
theorem truthy_coord (l : LocationForm) (i : Nat) :
    truthy (l.coord i) = !l.coordEmpty i := by
  unfold LocationForm.coord LocationForm.coordEmpty
  rw [List.getD_eq_getElem?_getD, ← List.get?_eq_getElem?]
  cases h : l.coordinates.get? i <;> simp [truthy, bne]

/-- C1: `handleSubmit` of `CreateRide` shows an error toast and does not call
`rides.create` when no user is logged in or one of the four coordinate strings is
empty, and it calls `rides.create` exactly when a user is logged in and the four
coordinate strings are non-empty. -/
theorem handleSubmit_validation (user : JSVal) (formData : FormData) (outcome : Option JSVal) :
    ((truthy user = false ∨ formData.pickupLocation.coordEmpty 0 = true ∨
        formData.pickupLocation.coordEmpty 1 = true ∨
        formData.dropoffLocation.coordEmpty 0 = true ∨
        formData.dropoffLocation.coordEmpty 1 = true) →
      showsErrorToast (handleSubmit user formData outcome) = true ∧
      callsCreate (handleSubmit user formData outcome) = false) ∧
    (callsCreate (handleSubmit user formData outcome) = true ↔
      (truthy user = true ∧ formData.pickupLocation.coordEmpty 0 = false ∧
        formData.pickupLocation.coordEmpty 1 = false ∧
        formData.dropoffLocation.coordEmpty 0 = false ∧
        formData.dropoffLocation.coordEmpty 1 = false)) := by
  unfold handleSubmit
  simp only [truthy_coord]
  cases truthy user <;> cases formData.pickupLocation.coordEmpty 0 <;>
    cases formData.pickupLocation.coordEmpty 1 <;>
    cases formData.dropoffLocation.coordEmpty 0 <;>
    cases formData.dropoffLocation.coordEmpty 1 <;>
    simp [showsErrorToast, callsCreate]

/-! ## The request interceptor -/

/-- Reading a key after assigning it gives the assigned value. -/
theorem lookup_assign_same (k : String) (v : JSVal) (fs : List (String × JSVal)) :
    lookup k (assign k v fs) = v := by
  induction fs with
  | nil => simp [assign, lookup]
  | cons p rest ih =>
    obtain ⟨k', v'⟩ := p
    by_cases h : k' = k <;> simp [assign, lookup, h, ih]

/-- Assigning a key leaves the value of every other key unchanged. -/
theorem lookup_assign_other (k j : String) (v : JSVal) (fs : List (String × JSVal))
    (hj : j ≠ k) : lookup j (assign k v fs) = lookup j fs := by
  induction fs with
  | nil => simp [assign, lookup, Ne.symm hj]
  | cons p rest ih =>
    obtain ⟨k', v'⟩ := p
    by_cases h : k' = k
    · subst h
      simp [assign, lookup, Ne.symm hj]
    · by_cases h2 : k' = j
      · subst h2
        simp [assign, lookup, h]
      · simp [assign, lookup, h, h2, ih]

/-- C2: for a request config whose `headers` is an object, the interceptor returns the
config with `headers.Authorization` equal to `'Bearer '` followed by the stored token
when that token is non-empty, every other header and every other field of the config
unchanged; with no token or an empty one it returns the config as it is. -/
theorem requestInterceptor_injects_token (token : Option String)
    (fs hs : List (String × JSVal)) (hh : lookup "headers" fs = .obj hs) :
    (∀ t, token = some t → t ≠ "" →
      ∃ fs' hs', requestInterceptor token (.obj fs) = .ok (.obj fs') ∧
        lookup "headers" fs' = .obj hs' ∧
        lookup "Authorization" hs' = .str ("Bearer " ++ t) ∧
        (∀ k, k ≠ "Authorization" → lookup k hs' = lookup k hs) ∧
        (∀ k, k ≠ "headers" → lookup k fs' = lookup k fs)) ∧
    ((token = none ∨ token = some "") →
      requestInterceptor token (.obj fs) = .ok (.obj fs)) := by
  constructor
  · intro t ht hne
    subst ht
    refine ⟨assign "headers" (.obj (assign "Authorization" (.str ("Bearer " ++ t)) hs)) fs,
      assign "Authorization" (.str ("Bearer " ++ t)) hs, ?_, ?_, ?_, ?_, ?_⟩
    · simp [requestInterceptor, truthy, hne, hh]
    · exact lookup_assign_same _ _ _
    · exact lookup_assign_same _ _ _
    · intro k hk
      exact lookup_assign_other _ _ _ _ hk
    · intro k hk
      exact lookup_assign_other _ _ _ _ hk
  · rintro (h | h) <;> subst h <;> simp [requestInterceptor, truthy]

/-- The statement of C2 on a sample config and the token `abc`. -/
theorem requestInterceptor_injects_token_witness :
    lookup "headers" sampleConfigFields = .obj [("Content-Type", .str "application/json")] ∧
    requestInterceptor (some "abc") (.obj sampleConfigFields) =
      .ok (.obj [("url", .str "/api/rides/getRides"), ("method", .str "get"),
        ("headers", .obj [("Content-Type", .str "application/json"),
          ("Authorization", .str "Bearer abc")])]) ∧
    (∃ fs' hs', requestInterceptor (some "abc") (.obj sampleConfigFields) = .ok (.obj fs') ∧
        lookup "headers" fs' = .obj hs' ∧
        lookup "Authorization" hs' = .str ("Bearer " ++ "abc") ∧
        (∀ k, k ≠ "Authorization" →
          lookup k hs' = lookup k [("Content-Type", .str "application/json")]) ∧
        (∀ k, k ≠ "headers" → lookup k fs' = lookup k sampleConfigFields)) :=
  ⟨rfl, rfl,
    (requestInterceptor_injects_token (some "abc") sampleConfigFields
      [("Content-Type", .str "application/json")] rfl).1 "abc" rfl (by decide)⟩

/-! ## The load handlers on a 401 response -/

/-- The load handlers of `MyRides`, `RideRequests`, `Notifications` and `MyReports`
navigate to `/login` on every error whose response has status 401. -/
theorem redirect_on_401_where_handled (fields rest : List (String × JSVal)) (data : JSVal) :
    redirects "/login" (MyRides.fetchMyRidesRejected (.obj (("response",
      .obj (("status", .num 401) :: ("data", data) :: rest)) :: fields))) = true ∧
    redirects "/login" (RideRequests.fetchRideRequestsRejected (.obj (("response",
      .obj (("status", .num 401) :: ("data", data) :: rest)) :: fields))) = true ∧
    redirects "/login" (Notifications.fetchNotificationsRejected (.obj (("response",
      .obj (("status", .num 401) :: ("data", data) :: rest)) :: fields))) = true ∧
    redirects "/login" (MyReports.fetchMyReportsRejected (.obj (("response",
      .obj (("status", .num 401) :: ("data", data) :: rest)) :: fields))) = true := by
  simp [MyRides.fetchMyRidesRejected, RideRequests.fetchRideRequestsRejected,
    Notifications.fetchNotificationsRejected, MyReports.fetchMyReportsRejected,
    JSVal.get, lookup, truthy, strictEq, redirects, navigatesTo, bind, Except.bind, pure,
    Except.pure]

/-- The load handlers of `Rides`, `RideDetail` and `EditRide` never navigate, whatever
the error is. -/
theorem no_redirect_in_fetchRides (error : JSVal) (path : String) :
    redirects path (Rides.fetchRidesRejected error) = false ∧
    redirects path (RideDetail.fetchRideDetailsRejected error) = false ∧
    redirects path (EditRide.fetchRideDetailsRejected error) = false := by
  refine ⟨?_, ?_, ?_⟩
  · unfold Rides.fetchRidesRejected
    simp only [bind, Except.bind, pure, Except.pure]
    repeat' split
    all_goals simp_all [redirects, navigatesTo]
  · unfold RideDetail.fetchRideDetailsRejected
    simp only [bind, Except.bind, pure, Except.pure]
    repeat' split
    all_goals simp_all [redirects, navigatesTo]
  · unfold EditRide.fetchRideDetailsRejected
    simp only [bind, Except.bind, pure, Except.pure]
    repeat' split
    all_goals simp_all [redirects, navigatesTo]

/-- C3 (evaluation at the failing input): on the error of a 401 response the load
handlers `fetchRides` of `Rides` and `fetchRideDetails` of `RideDetail` and of
`EditRide` complete without navigating to `/login`; they never navigate at all. -/
theorem no_redirect_on_401_in_fetchRides :
    redirects "/login" (Rides.fetchRidesRejected error401) = false ∧
    redirects "/login" (RideDetail.fetchRideDetailsRejected error401) = false ∧
    redirects "/login" (EditRide.fetchRideDetailsRejected error401) = false ∧
    Rides.fetchRidesRejected error401 =
      .ok [.setLoading true, .setError .null, .setError (.str "Unauthorized"),
        .toastError (.str "Unauthorized"), .setLoading false] ∧
    redirects "/login" (MyRides.fetchMyRidesRejected error401) = true := by
  refine ⟨rfl, rfl, rfl, rfl, rfl⟩

/-! ## RideRequests: the status processing -/

/-- The status of `{...request, status}` is the given status. -/
theorem optGet_withStatus (request s : JSVal) :
    (withStatus request s).optGet "status" = s := by
  simp [withStatus, JSVal.optGet, lookup_assign_same]

/-- A property read that completes agrees with the optional read. -/
theorem optGet_of_get (v w : JSVal) (k : String) (h : v.get k = .ok w) :
    v.optGet k = w := by
  cases v <;> simp_all [JSVal.get, JSVal.optGet]

/-- A status taken from `request.passengers` is truthy. -/
theorem passengersStatus_truthy (user request s : JSVal)
    (h : RideRequests.passengersStatus user request = .ok (some s)) : truthy s = true := by
  unfold RideRequests.passengersStatus at h
  simp only [bind, Except.bind, pure, Except.pure] at h
  repeat' split at h
  all_goals simp_all

/-- A status taken from `request.ride.passengers` is truthy. -/
theorem ridePassengersStatus_truthy (user request s : JSVal)
    (h : RideRequests.ridePassengersStatus user request = .ok (some s)) : truthy s = true := by
  unfold RideRequests.ridePassengersStatus at h
  simp only [bind, Except.bind, pure, Except.pure] at h
  repeat' split at h
  all_goals simp_all

/-- The status of a processed request is truthy whenever the callback of
`refreshRideRequests` returns. -/
theorem refresh_process_status_truthy (user request : JSVal) (r : Processed)
    (h : RideRequests.refreshRideRequests_process user request = .ok r) :
    truthy (r.request.optGet "status") = true := by
  unfold RideRequests.refreshRideRequests_process at h
  simp only [bind, Except.bind, pure, Except.pure] at h
  repeat' split at h
  all_goals first
    | (simp at h; done)
    | (simp only [Except.ok.injEq] at h
       subst h
       first
         | (simp only [optGet_withStatus]
            first
              | assumption
              | exact passengersStatus_truthy _ _ _ (by assumption)
              | exact ridePassengersStatus_truthy _ _ _ (by assumption)
              | rfl)
         | (rename_i hs ht
            simp only [Bool.and_eq_true] at ht
            rw [optGet_of_get _ _ _ hs]
            exact ht.1))

/-- When the debug log completes, the callback of `fetchRideRequests` computes what the
callback of `refreshRideRequests` computes. -/
theorem fetch_process_eq_refresh (user request : JSVal)
    (h : RideRequests.debugLog user request = .ok ()) :
    RideRequests.fetchRideRequests_process user request =
      RideRequests.refreshRideRequests_process user request := by
  unfold RideRequests.fetchRideRequests_process RideRequests.refreshRideRequests_process
  simp [bind, Except.bind, h]

/-- When the debug log throws, the callback of `fetchRideRequests` throws. -/
theorem fetch_process_error (user request : JSVal) (e : JSError)
    (h : RideRequests.debugLog user request = .error e) :
    RideRequests.fetchRideRequests_process user request = .error e := by
  unfold RideRequests.fetchRideRequests_process 
  simp [bind, Except.bind, h]

/-- A property read from a value other than `undefined` and `null` completes. -/
theorem get_of_not_nullish (v : JSVal) (k : String) (h : nullish v = false) :
    v.get k = .ok (v.optGet k) := by
  cases v <;> simp_all [JSVal.get, JSVal.optGet, nullish]

/-- A truthy value is neither `undefined` nor `null`. -/
theorem nullish_of_truthy (v : JSVal) (h : truthy v = true) : nullish v = false := by
  cases v <;> simp_all [truthy, nullish]

/-- The lookup of the debug log completes on a list of entries that can be read. -/
theorem findM_loggedPassengerMatch_ok (user : JSVal) (hu : nullish user = false)
    (ps : List JSVal) (hp : ps.all (fun p => !nullish p) = true) :
    ∃ v, findM (RideRequests.loggedPassengerMatch user) ps = .ok v := by
  induction ps with
  | nil => exact ⟨_, rfl⟩
  | cons p rest ih =>
    simp only [List.all_cons, Bool.and_eq_true, Bool.not_eq_true'] at hp
    obtain ⟨v, hv⟩ := ih (by simpa using hp.2)
    simp only [findM, RideRequests.loggedPassengerMatch, get_of_not_nullish p _ hp.1,
      get_of_not_nullish user _ hu, bind, Except.bind, pure, Except.pure]
    split
    · rename_i h; simp at h
    · exact ⟨_, rfl⟩
    · exact ⟨v, hv⟩

/-- The debug log completes for a logged-in user and a well-shaped `passengers` field. -/
theorem debugLog_ok (user : JSVal) (fs : List (String × JSVal)) (hu : truthy user = true)
    (hp : passengerListShape (lookup "passengers" fs) = true) :
    RideRequests.debugLog user (.obj fs) = .ok () := by
  unfold RideRequests.debugLog
  simp only [JSVal.get, bind, Except.bind, pure, Except.pure]
  cases hps : lookup "passengers" fs with
  | arr ps =>
    rw [hps] at hp
    obtain ⟨v, hv⟩ := findM_loggedPassengerMatch_ok user (nullish_of_truthy _ hu) ps hp
    split <;> simp [hv]
  | _ => rw [hps] at hp; first | (simp [passengerListShape] at hp; done) | (split <;> simp)

/-- C4 (evaluation at the failing input): for a user that has an `id` and no `_id`, a
request with no `userRequestStatus`, no status of its own and one passenger entry
that belongs to nobody (`user: null`) is processed to the status of that entry,
`'confirmed'`, not to `'pending'`: the entry's missing identifier is compared with
the missing `user._id` and the two `undefined` values are strictly equal. -/
theorem process_takes_status_of_orphan_entry :
    RideRequests.fetchRideRequests_process userWithId requestWithOrphanEntry =
      .ok { request := withStatus requestWithOrphanEntry (.str "confirmed"), refresh := none } ∧
    RideRequests.refreshRideRequests_process userWithId requestWithOrphanEntry =
      .ok { request := withStatus requestWithOrphanEntry (.str "confirmed"), refresh := none } ∧
    (withStatus requestWithOrphanEntry (.str "confirmed")).optGet "status" = .str "confirmed" ∧
    requestWithOrphanEntry.optGet "userRequestStatus" = .undefined ∧
    requestWithOrphanEntry.optGet "status" = .undefined ∧
    requestWithOrphanEntry.optGet "ride" = .undefined := by
  refine ⟨rfl, rfl, rfl, rfl, rfl, rfl⟩

/-- The status of a processed request is truthy whenever the callback of
`fetchRideRequests` returns. -/
theorem fetch_process_status_truthy (user request : JSVal) (r : Processed)
    (h : RideRequests.fetchRideRequests_process user request = .ok r) :
    truthy (r.request.optGet "status") = true := by
  cases hd : RideRequests.debugLog user request with
  | error e => rw [fetch_process_error _ _ _ hd] at h; simp at h
  | ok u =>
    rw [fetch_process_eq_refresh _ _ hd] at h
    exact refresh_process_status_truthy _ _ _ h

/-- What `find` returns is `undefined` or an element the callback accepts. -/
theorem findM_result (f : JSVal → Except JSError Bool) (ps : List JSVal) (v : JSVal)
    (h : findM f ps = .ok v) : v = .undefined ∨ (v ∈ ps ∧ f v = .ok true) := by
  induction ps with
  | nil => simp [findM] at h; exact Or.inl h.symm
  | cons p rest ih =>
    unfold findM at h
    split at h
    · simp at h
    · rename_i hp
      simp only [Except.ok.injEq] at h
      subst h
      exact Or.inr ⟨List.mem_cons_self _ _, hp⟩
    · rcases ih h with h1 | ⟨h1, h2⟩
      · exact Or.inl h1
      · exact Or.inr ⟨List.mem_cons_of_mem _ h1, h2⟩

/-- The call of `find` completes when its callback completes on every element. -/
theorem findM_total (f : JSVal → Except JSError Bool) (ps : List JSVal)
    (h : ∀ p ∈ ps, ∃ b, f p = .ok b) : ∃ v, findM f ps = .ok v := by
  induction ps with
  | nil => exact ⟨_, rfl⟩
  | cons p rest ih =>
    obtain ⟨b, hb⟩ := h p (List.mem_cons_self _ _)
    obtain ⟨v, hv⟩ := ih (fun q hq => h q (List.mem_cons_of_mem _ hq))
    cases b
    · exact ⟨v, by simp [findM, hb, hv]⟩
    · exact ⟨p, by simp [findM, hb]⟩

/-- A value strictly equal to a truthy value is truthy. -/
theorem strictEq_truthy (a b : JSVal) (h : strictEq a b = true) (hb : truthy b = true) :
    truthy a = true := by
  cases a <;> cases b <;> simp_all [strictEq, truthy]

/-- Reading a property of an object is the lookup in its fields. -/
theorem get_obj (fs : List (String × JSVal)) (k : String) :
    (JSVal.obj fs).get k = .ok (lookup k fs) := rfl

/-- The optional read of a property of an object is the lookup in its fields. -/
theorem optGet_obj (fs : List (String × JSVal)) (k : String) :
    (JSVal.obj fs).optGet k = lookup k fs := rfl

/-- For a user with both identifiers present, an entry the callback of
`request.passengers.find` accepts is the user's own. -/
theorem passengerMatch_entryOfUser (us : List (String × JSVal)) (p : JSVal)
    (hid : truthy (lookup "id" us) = true) (hid' : truthy (lookup "_id" us) = true)
    (h : RideRequests.passengerMatch (.obj us) p = .ok true) :
    entryOfUser (.obj us) p = true := by
  unfold RideRequests.passengerMatch at h
  simp only [bind, Except.bind, pure, Except.pure, get_obj] at h
  cases hp : p.get "user" with
  | error e => simp [hp] at h
  | ok pUser =>
    have hpu : p.optGet "user" = pUser := optGet_of_get _ _ _ hp
    simp only [hp] at h
    unfold entryOfUser entryIdentifiers
    rw [hpu]
    simp only [optGet_obj]
    by_cases hs : isString pUser = true
    · simp only [hs, if_true] at h ⊢
      split at h
      · rename_i h1
        simp [strictEq_truthy _ _ h1 hid, h1]
      · simp only [Except.ok.injEq] at h
        simp [strictEq_truthy _ _ h hid', h]
    · simp only [hs] at h ⊢
      simp only [Bool.false_eq_true, if_false] at h ⊢
      have key : ∀ u, truthy u = true →
          strictEq (jsOr (pUser.optGet "id") (pUser.optGet "_id")) u = true →
          (truthy (pUser.optGet "id") = true ∧ strictEq (pUser.optGet "id") u = true) ∨
          (truthy (pUser.optGet "_id") = true ∧ strictEq (pUser.optGet "_id") u = true) := by
        intro u hu he
        have ht := strictEq_truthy _ _ he hu
        unfold jsOr at he ht
        by_cases h1 : truthy (pUser.optGet "id") = true
        · simp only [h1, if_true] at he ht
          exact Or.inl ⟨h1, he⟩
        · simp only [h1] at he ht
          exact Or.inr ⟨ht, he⟩
      split at h
      · rename_i h1
        rcases key _ hid h1 with ⟨a, b⟩ | ⟨a, b⟩ <;> simp [a, b]
      · simp only [Except.ok.injEq] at h
        rcases key _ hid' h with ⟨a, b⟩ | ⟨a, b⟩ <;> simp [a, b]

/-- A value strictly equal to a string is a string. -/
theorem strictEq_isString (a b : JSVal) (h : strictEq a b = true) (hb : isString b = true) :
    isString a = true := by
  cases a <;> cases b <;> simp_all [strictEq, isString]

/-- The value `undefined` is not strictly equal to a string. -/
theorem strictEq_undefined_str (b : JSVal) (hb : isString b = true) :
    strictEq .undefined b = false := by
  cases b <;> simp_all [strictEq, isString]

/-- For a user with a string `id`, an entry the callback of `request.ride.passengers.find`
accepts is the user's own. -/
theorem ridePassengerMatch_entryOfUser (us : List (String × JSVal)) (p : JSVal)
    (hid : truthy (lookup "id" us) = true) (hs : isString (lookup "id" us) = true)
    (h : RideRequests.ridePassengerMatch (.obj us) p = .ok true) :
    entryOfUser (.obj us) p = true := by
  unfold RideRequests.ridePassengerMatch at h
  simp only [bind, Except.bind, pure, Except.pure, get_obj] at h
  cases hp : p.get "user" with
  | error e => simp [hp] at h
  | ok pUser =>
    have hpu : p.optGet "user" = pUser := optGet_of_get _ _ _ hp
    simp only [hp] at h
    unfold entryOfUser entryIdentifiers
    rw [hpu]
    simp only [optGet_obj]
    split at h
    · rename_i h1
      simp [strictEq_isString _ _ h1 hs, strictEq_truthy _ _ h1 hid, h1]
    · cases pUser with
      | obj ps =>
        simp only [truthy, if_true, get_obj] at h
        simp only [isString, Bool.false_eq_true, if_false, optGet_obj]
        split at h
        · rename_i h2
          simp [strictEq_truthy _ _ h2 hid, h2]
        · simp only [Except.ok.injEq] at h
          simp [strictEq_truthy _ _ h hid, h]
      | _ => simp_all [truthy, JSVal.get, strictEq_undefined_str]

/-- The callback of `request.passengers.find` completes on an entry that can be read. -/
theorem passengerMatch_total (us : List (String × JSVal)) (p : JSVal)
    (hp : nullish p = false) : ∃ b, RideRequests.passengerMatch (.obj us) p = .ok b := by
  unfold RideRequests.passengerMatch
  simp only [bind, Except.bind, pure, Except.pure, get_obj, get_of_not_nullish p _ hp]
  repeat' split
  all_goals exact ⟨_, rfl⟩

/-- The callback of `request.ride.passengers.find` completes on an entry that can be read. -/
theorem ridePassengerMatch_total (us : List (String × JSVal)) (p : JSVal)
    (hp : nullish p = false) : ∃ b, RideRequests.ridePassengerMatch (.obj us) p = .ok b := by
  unfold RideRequests.ridePassengerMatch
  simp only [bind, Except.bind, pure, Except.pure, get_obj, get_of_not_nullish p _ hp]
  split
  · exact ⟨_, rfl⟩
  · split
    · rename_i ht
      simp only [get_of_not_nullish _ _ (nullish_of_truthy _ ht)]
      repeat' split
      all_goals exact ⟨_, rfl⟩
    · exact ⟨_, rfl⟩

/-- The status lookup in a passengers array finds nothing when no entry of the array is
the user's own and carries a status. -/
theorem lookup_finds_nothing (f : JSVal → Except JSError Bool) (user : JSVal)
    (ps : List JSVal) (hshape : ps.all (fun p => !nullish p) = true)
    (htotal : ∀ p, nullish p = false → ∃ b, f p = .ok b)
    (hsound : ∀ p, f p = .ok true → entryOfUser user p = true)
    (hnone : ps.all (fun p => !(entryOfUser user p && truthy (p.optGet "status"))) = true) :
    (do
      let userPassenger ← findM f ps
      if truthy userPassenger then
        let status ← userPassenger.get "status"
        if truthy status then return some status else return none
      else return none : Except JSError (Option JSVal)) = .ok none := by
  simp only [List.all_eq_true, Bool.not_eq_true', Bool.and_eq_false_imp] at hshape hnone
  obtain ⟨v, hv⟩ := findM_total f ps (fun p hp => htotal p (hshape p hp))
  simp only [hv, bind, Except.bind, pure, Except.pure]
  rcases findM_result f ps v hv with h | ⟨hmem, hmatch⟩
  · subst h; simp [truthy]
  · have hst := hnone v hmem (hsound v hmatch)
    rw [get_of_not_nullish v _ (hshape v hmem)]
    simp [hst]

/-- The lookup in `request.passengers` finds no status when no entry of the user carries one. -/
theorem passengersStatus_none (us fs : List (String × JSVal))
    (hid : truthy (lookup "id" us) = true) (hid' : truthy (lookup "_id" us) = true)
    (hshape : passengerListShape (lookup "passengers" fs) = true)
    (hnone : noStatusForUser (.obj us) (lookup "passengers" fs) = true) :
    RideRequests.passengersStatus (.obj us) (.obj fs) = .ok none := by
  unfold RideRequests.passengersStatus
  rw [get_obj]
  cases h : lookup "passengers" fs with
  | arr ps =>
    rw [h] at hshape hnone
    have := lookup_finds_nothing (RideRequests.passengerMatch (.obj us)) (.obj us) ps hshape
      (fun p hp => passengerMatch_total us p hp)
      (fun p hp => passengerMatch_entryOfUser us p hid hid' hp) hnone
    simpa [bind, Except.bind, pure, Except.pure] using this
  | _ => rfl

/-- The lookup in `request.ride.passengers` finds no status when no entry of the user
carries one. -/
theorem ridePassengersStatus_none (us fs : List (String × JSVal))
    (hid : truthy (lookup "id" us) = true) (hs : isString (lookup "id" us) = true)
    (hshape : passengerListShape ((lookup "ride" fs).optGet "passengers") = true)
    (hnone : noStatusForUser (.obj us) ((lookup "ride" fs).optGet "passengers") = true) :
    RideRequests.ridePassengersStatus (.obj us) (.obj fs) = .ok none := by
  unfold RideRequests.ridePassengersStatus
  rw [get_obj]
  by_cases ht : truthy (lookup "ride" fs) = true
  · simp only [bind, Except.bind, pure, Except.pure, ht, if_true,
      get_of_not_nullish _ _ (nullish_of_truthy _ ht)]
    cases h : (lookup "ride" fs).optGet "passengers" with
    | arr ps =>
      rw [h] at hshape hnone
      have := lookup_finds_nothing (RideRequests.ridePassengerMatch (.obj us)) (.obj us) ps
        hshape (fun p hp => ridePassengerMatch_total us p hp)
        (fun p hp => ridePassengerMatch_entryOfUser us p hid hs hp) hnone
      simpa [bind, Except.bind, pure, Except.pure] using this
    | _ => rfl
  · simp [bind, Except.bind, pure, Except.pure, ht]

/-- The scheduling step of the default branch completes on every request object. -/
theorem scheduledRefresh_total (fs : List (String × JSVal)) :
    ∃ id, RideRequests.scheduledRefresh (.obj fs) = .ok id := by
  unfold RideRequests.scheduledRefresh
  rw [get_obj]
  by_cases ht : truthy (lookup "ride" fs) = true
  · simp only [bind, Except.bind, pure, Except.pure, ht, if_true,
      get_of_not_nullish _ _ (nullish_of_truthy _ ht)]
    repeat' split
    all_goals exact ⟨_, rfl⟩
  · simp [bind, Except.bind, pure, Except.pure, ht]

/-- For a user whose `id` and `_id` are both present (the `id` a string), a request
with no `userRequestStatus`, no status of its own and no entry of the user with a status
in `request.passengers` or `request.ride.passengers` is processed to `'pending'`. -/
theorem process_defaults_to_pending (us fs : List (String × JSVal))
    (hid : truthy (lookup "id" us) = true) (hs : isString (lookup "id" us) = true)
    (hid' : truthy (lookup "_id" us) = true)
    (hp : passengerListShape (lookup "passengers" fs) = true)
    (hrp : passengerListShape ((lookup "ride" fs).optGet "passengers") = true)
    (h1 : truthy (lookup "userRequestStatus" fs) = false)
    (h2 : truthy (lookup "status" fs) = false)
    (h3 : noStatusForUser (.obj us) (lookup "passengers" fs) = true)
    (h4 : noStatusForUser (.obj us) ((lookup "ride" fs).optGet "passengers") = true) :
    ∃ id, RideRequests.refreshRideRequests_process (.obj us) (.obj fs) =
        .ok { request := withStatus (.obj fs) (.str "pending"), refresh := id } ∧
      RideRequests.fetchRideRequests_process (.obj us) (.obj fs) =
        .ok { request := withStatus (.obj fs) (.str "pending"), refresh := id } := by
  obtain ⟨id, hid2⟩ := scheduledRefresh_total fs
  have hr : RideRequests.refreshRideRequests_process (.obj us) (.obj fs) =
      .ok { request := withStatus (.obj fs) (.str "pending"), refresh := id } := by
    unfold RideRequests.refreshRideRequests_process
    simp [get_obj, bind, Except.bind, pure, Except.pure, h1, h2,
      passengersStatus_none us fs hid hid' hp h3, ridePassengersStatus_none us fs hid hs hrp h4,
      hid2]
  refine ⟨id, hr, ?_⟩
  rw [fetch_process_eq_refresh _ _ (debugLog_ok (.obj us) fs rfl hp), hr]

/-- The precedence of `userRequestStatus` where the debug log completes: a request that
carries a truthy `userRequestStatus` is processed, by the callback of
`refreshRideRequests` and (for a logged-in user and a `passengers` field that is absent
or an array of entries) by the callback of `fetchRideRequests`, to the request with
`status` set to `userRequestStatus`, whatever its own status and passenger entries
are; every field other than `status` keeps its value. -/
theorem userRequestStatus_takes_precedence (user : JSVal) (fs : List (String × JSVal))
    (hs : truthy (lookup "userRequestStatus" fs) = true) :
    RideRequests.refreshRideRequests_process user (.obj fs) =
      .ok { request := .obj (assign "status" (lookup "userRequestStatus" fs) fs),
            refresh := none } ∧
    (truthy user = true → passengerListShape (lookup "passengers" fs) = true →
      RideRequests.fetchRideRequests_process user (.obj fs) =
        .ok { request := .obj (assign "status" (lookup "userRequestStatus" fs) fs),
              refresh := none }) ∧
    (∀ r, RideRequests.fetchRideRequests_process user (.obj fs) = .ok r →
      r.request = .obj (assign "status" (lookup "userRequestStatus" fs) fs)) ∧
    lookup "status" (assign "status" (lookup "userRequestStatus" fs) fs) =
      lookup "userRequestStatus" fs ∧
    (∀ k, k ≠ "status" →
      lookup k (assign "status" (lookup "userRequestStatus" fs) fs) = lookup k fs) := by
  have hr : RideRequests.refreshRideRequests_process user (.obj fs) =
      .ok { request := .obj (assign "status" (lookup "userRequestStatus" fs) fs),
            refresh := none } := by
    unfold RideRequests.refreshRideRequests_process
    simp [JSVal.get, bind, Except.bind, pure, Except.pure, hs, withStatus, spreadFields]
  refine ⟨hr, ?_, ?_, lookup_assign_same _ _ _, fun k hk => lookup_assign_other _ _ _ _ hk⟩
  · intro hu hp
    rw [fetch_process_eq_refresh _ _ (debugLog_ok user fs hu hp), hr]
  · intro r h
    cases hd : RideRequests.debugLog user (.obj fs) with
    | error e => rw [fetch_process_error _ _ _ hd] at h; simp at h
    | ok u =>
      rw [fetch_process_eq_refresh _ _ hd, hr] at h
      simp only [Except.ok.injEq] at h
      rw [← h]

/-- The precedence of `userRequestStatus` on a request with a rejected own status and a
cancelled passenger entry next to `userRequestStatus: 'confirmed'`. -/
theorem userRequestStatus_takes_precedence_witness :
    truthy (lookup "userRequestStatus" requestWithUserStatusFields) = true ∧
    RideRequests.fetchRideRequests_process userWithId (.obj requestWithUserStatusFields) =
      .ok { request := .obj [("id", .str "r2"), ("status", .str "confirmed"),
              ("userRequestStatus", .str "confirmed"),
              ("passengers", .arr [.obj [("user", .str "u1"), ("status", .str "cancelled")]])],
            refresh := none } :=
  ⟨rfl, (userRequestStatus_takes_precedence userWithId requestWithUserStatusFields rfl).2.1
    rfl rfl⟩

/-! ## List extraction and `fetchRides` -/

/-- C6 (evaluation at the failing input): for the response body
`{ success: true, data: { rides: [] } }` the value that `fetchRides` and
`fetchRideRequests` extract is the object `{ rides: [] }`, not an array, and the list
step applied to it next throws; `fetchMyRides`, which tests `Array.isArray` on
`response.data.data`, extracts an array from the same response. -/
theorem extracted_value_not_an_array (B : Builtins) (apiKey user : JSVal)
    (geocode : JSVal → JSVal → JSVal) :
    Rides.extractRides responseWithObjectPayload = .ok (.obj [("rides", .arr [])]) ∧
    RideRequests.extractRequests responseWithObjectPayload = .ok (.obj [("rides", .arr [])]) ∧
    isArray (.obj [("rides", .arr [])]) = false ∧
    Rides.fetchRidesLoaded B apiKey geocode responseWithObjectPayload = .error .typeError ∧
    RideRequests.fetchRideRequestsLoaded user responseWithObjectPayload = .error .typeError ∧
    MyRides.extractRides responseWithObjectPayload =
      .ok (.arr [.obj [("success", .bool true), ("data", .obj [("rides", .arr [])])]]) := by
  refine ⟨rfl, rfl, rfl, rfl, rfl, rfl⟩

/-- The value `fetchMyRides` extracts is an array for every response. -/
theorem MyRides.extractRides_isArray (response v : JSVal)
    (h : MyRides.extractRides response = .ok v) : isArray v = true := by
  unfold MyRides.extractRides at h
  simp only [bind, Except.bind, pure, Except.pure] at h
  repeat' split at h
  all_goals first
    | (simp at h; done)
    | (simp only [Except.ok.injEq] at h
       subst h
       first
         | rfl
         | assumption
         | (rename_i h1; simp only [Bool.and_eq_true] at h1; exact h1.2))

/-- A filter whose callback never throws is the filter by the predicate it computes. -/
theorem filterM_eq_filter (f : JSVal → Except JSError Bool) (p : JSVal → Bool)
    (items : List JSVal) (h : ∀ x ∈ items, f x = .ok (p x)) :
    filterM f items = .ok (items.filter p) := by
  induction items with
  | nil => rfl
  | cons x rest ih =>
    have hx := h x (List.mem_cons_self _ _)
    have hrest := ih (fun y hy => h y (List.mem_cons_of_mem _ hy))
    simp only [filterM, hx, hrest, List.filter_cons]

/-- On a ride with a textual status the callback of `fetchRides` decides whether the
status is absent, empty or `'active'`. -/
theorem isActiveOrUnset_eq (ride : JSVal) (hn : nullish ride = false)
    (ht : statusIsText ride = true) :
    Rides.isActiveOrUnset ride = .ok (statusUnsetOrActive ride) := by
  unfold Rides.isActiveOrUnset
  rw [get_of_not_nullish ride _ hn]
  unfold statusUnsetOrActive statusIsText at *
  simp only [bind, Except.bind, pure, Except.pure]
  cases h : ride.optGet "status" <;> simp_all [truthy, strictEq, bne]
  
/-- Writing an address into a location leaves the status of the ride unchanged. -/
theorem enrichLocation_status (geocode : JSVal → JSVal → JSVal) (key : String)
    (hk : key ≠ "status") (ride : JSVal) :
    (Rides.enrichLocation geocode key ride).optGet "status" = ride.optGet "status" := by
  unfold Rides.enrichLocation
  cases ride with
  | obj fs =>
    simp only
    split
    · simp only [JSVal.optGet]
      exact lookup_assign_other _ _ _ _ (Ne.symm hk)
    · rfl
  | _ => rfl

/-- The enrichment leaves the status of a ride unchanged. -/
theorem enrichRide_status (apiKey : JSVal) (geocode : JSVal → JSVal → JSVal) (ride : JSVal) :
    (Rides.enrichRide apiKey geocode ride).optGet "status" = ride.optGet "status" := by
  unfold Rides.enrichRide
  split
  · rfl
  · rw [enrichLocation_status _ _ (by decide), enrichLocation_status _ _ (by decide)]

/-- C7: for a response that carries a list of rides, each a value whose status is a
string when present, `fetchRides` completes, and the list it passes to `setRides` is a
rearrangement of the response rides whose status is absent, empty or `'active'`, each
with the addresses the enrichment wrote: every stored ride has such a status and every
response ride with such a status is stored. -/
theorem fetchRides_stores_active_rides (B : Builtins) (apiKey : JSVal)
    (geocode : JSVal → JSVal → JSVal) (response : JSVal) (items : List JSVal)
    (hx : Rides.extractRides response = .ok (.arr items))
    (hn : ∀ r ∈ items, nullish r = false)
    (ht : ∀ r ∈ items, statusIsText r = true) :
    ∃ stored, Rides.fetchRidesLoaded B apiKey geocode response = .ok stored ∧
      stored.Perm ((items.filter statusUnsetOrActive).map (Rides.enrichRide apiKey geocode)) ∧
      (∀ r ∈ stored, statusUnsetOrActive r = true) ∧
      (∀ r ∈ items, statusUnsetOrActive r = true →
        Rides.enrichRide apiKey geocode r ∈ stored) := by
  have hf := filterM_eq_filter Rides.isActiveOrUnset statusUnsetOrActive items
    (fun r hr => isActiveOrUnset_eq r (hn r hr) (ht r hr))
  have hperm : ((jsSort (Rides.compareDeparture B) (items.filter statusUnsetOrActive)).map
      (Rides.enrichRide apiKey geocode)).Perm
      ((items.filter statusUnsetOrActive).map (Rides.enrichRide apiKey geocode)) :=
    (List.perm_insertionSort _ _).map _
  refine ⟨_, ?_, hperm, ?_, ?_⟩
  · simp [Rides.fetchRidesLoaded, hx, asArray, hf, bind, Except.bind, pure, Except.pure]
  · intro r hr
    rw [hperm.mem_iff, List.mem_map] at hr
    obtain ⟨r0, hr0, rfl⟩ := hr
    have := (List.mem_filter.mp hr0).2
    unfold statusUnsetOrActive at *
    rwa [enrichRide_status]
  · intro r hr hs
    rw [hperm.mem_iff]
    exact List.mem_map_of_mem _ (List.mem_filter.mpr ⟨hr, hs⟩)

/-- The statement of C7 on a response with an active, a completed and a status-less
ride. -/
theorem fetchRides_stores_active_rides_witness :
    Rides.extractRides sampleRidesResponse = .ok (.arr [
      .obj [("id", .str "r1"), ("status", .str "active"), ("time", .num 20)],
      .obj [("id", .str "r2"), ("status", .str "completed"), ("time", .num 5)],
      .obj [("id", .str "r3"), ("time", .num 10)]]) ∧
    Rides.fetchRidesLoaded sampleBuiltins .undefined (fun _ _ => .null) sampleRidesResponse =
      .ok [.obj [("id", .str "r3"), ("time", .num 10)],
           .obj [("id", .str "r1"), ("status", .str "active"), ("time", .num 20)]] ∧
    ∃ stored, Rides.fetchRidesLoaded sampleBuiltins .undefined (fun _ _ => .null)
        sampleRidesResponse = .ok stored ∧
      stored.Perm (([
        .obj [("id", .str "r1"), ("status", .str "active"), ("time", .num 20)],
        .obj [("id", .str "r2"), ("status", .str "completed"), ("time", .num 5)],
        .obj [("id", .str "r3"), ("time", .num 10)]].filter statusUnsetOrActive).map
          (Rides.enrichRide .undefined (fun _ _ => .null))) ∧
      (∀ r ∈ stored, statusUnsetOrActive r = true) ∧
      (∀ r ∈ [
        .obj [("id", .str "r1"), ("status", .str "active"), ("time", .num 20)],
        .obj [("id", .str "r2"), ("status", .str "completed"), ("time", .num 5)],
        .obj [("id", .str "r3"), ("time", .num 10)]], statusUnsetOrActive r = true →
        Rides.enrichRide .undefined (fun _ _ => .null) r ∈ stored) :=
  ⟨rfl, rfl, fetchRides_stores_active_rides sampleBuiltins .undefined (fun _ _ => .null)
    sampleRidesResponse _ rfl (by decide) (by decide)⟩

/-! ## Rides: the filters of the ride list -/

/-- C8 (evaluation at the failing inputs): with a minimum of one seat the filter keeps
a ride that carries no seat count, for which the card displays `0`; with a minimum of
two seats it drops the ride `{ availableSeats: 0, seatsAvailable: 4 }`, for which the
card displays `4`. -/
theorem seats_filter_disagrees_with_displayed_seats :
    Rides.filteredRides sampleBuiltins { Filters.none with seats := "1" } [rideWithoutSeats] =
      .ok [rideWithoutSeats] ∧
    Rides.displayedSeats rideWithoutSeats = .num 0 ∧
    sampleBuiltins.parseInt "1" = .num 1 ∧
    Rides.filteredRides sampleBuiltins { Filters.none with seats := "2" }
      [rideWithBothSeatFields] = .ok [] ∧
    Rides.displayedSeats rideWithBothSeatFields = .num 4 ∧
    sampleBuiltins.parseInt "2" = .num 2 ∧
    (∀ (B : Builtins) (s : String),
      Rides.filteredRides B { Filters.none with seats := s } [rideWithoutSeats] =
        .ok [rideWithoutSeats]) := by
  refine ⟨rfl, rfl, rfl, rfl, rfl, rfl, ?_⟩
  intro B s
  by_cases hs : s = "" <;>
    simp [Rides.filteredRides, filterM, Rides.passesFilters, Filters.none, truthy, hs,
      rideWithoutSeats, JSVal.get, lookup, jsLt, toNumber, numLt, jsSortM, orderedInsertM, bind, Except.bind,
      pure, Except.pure]

/-- C9 (evaluation at the failing input): with a minimum price of `10` the filter keeps
a ride that carries no price, which the sort and the card count as price `0`. -/
theorem price_filter_keeps_ride_without_price :
    Rides.filteredRides sampleBuiltins { Filters.none with priceMin := "10" }
      [rideWithoutPrice] = .ok [rideWithoutPrice] ∧
    Rides.sortPrice rideWithoutPrice = .num 0 ∧
    sampleBuiltins.parseFloat "10" = .num 10 ∧
    (∀ (B : Builtins) (s : String),
      Rides.filteredRides B { Filters.none with priceMin := s } [rideWithoutPrice] =
        .ok [rideWithoutPrice]) := by
  refine ⟨rfl, rfl, rfl, ?_⟩
  intro B s
  by_cases hs : s = "" <;>
    simp [Rides.filteredRides, filterM, Rides.passesFilters, Filters.none, truthy, hs,
      rideWithoutPrice, JSVal.get, lookup, jsLt, toNumber, numLt, jsSortM, orderedInsertM, bind, Except.bind,
      pure, Except.pure]

/-- On a ride that carries exactly one of the two seat fields, as a number, the seats
filter keeps the ride exactly when the displayed seat count is at least the minimum. -/
theorem seats_filter_single_field (B : Builtins) (s : String) (fs : List (String × JSVal))
    (n k : Int) (hs : s ≠ "") (hp : B.parseInt s = .num n)
    (hk : (lookup "availableSeats" fs = .num k ∧ lookup "seatsAvailable" fs = .undefined) ∨
      (lookup "availableSeats" fs = .undefined ∧ lookup "seatsAvailable" fs = .num k)) :
    Rides.passesFilters B { Filters.none with seats := s } (.obj fs) = .ok (decide (n ≤ k)) ∧
    Rides.displayedSeats (.obj fs) = .num k := by
  constructor
  · unfold Rides.passesFilters
    rcases hk with ⟨h1, h2⟩ | ⟨h1, h2⟩ <;>
      by_cases hnk : k < n <;>
      simp [Filters.none, truthy, hs, JSVal.get, h1, h2, hp, jsLt, toNumber, numLt,
        bind, Except.bind, pure, Except.pure, hnk] <;> omega
  · unfold Rides.displayedSeats
    rcases hk with ⟨h1, h2⟩ | ⟨h1, h2⟩ <;>
      by_cases hk0 : k = 0 <;>
      simp [JSVal.optGet, h1, h2, jsOr, truthy, hk0]

/-- On a ride that carries a numeric price the price filter keeps the ride exactly
when the price lies within the bounds. -/
theorem price_filter_numeric (B : Builtins) (lo hi : String) (fs : List (String × JSVal))
    (a b p : Int) (hlo : lo ≠ "") (hhi : hi ≠ "")
    (ha : B.parseFloat lo = .num a) (hb : B.parseFloat hi = .num b)
    (hprice : lookup "price" fs = .num p) :
    Rides.passesFilters B { Filters.none with priceMin := lo, priceMax := hi } (.obj fs) =
      .ok (decide (a ≤ p ∧ p ≤ b)) := by
  unfold Rides.passesFilters
  by_cases h1 : p < a <;> by_cases h2 : b < p <;>
    (simp [Filters.none, truthy, hlo, hhi, JSVal.get, ha, hb, hprice, jsLt, jsGt, toNumber,
      numLt, bind, Except.bind, pure, Except.pure, h1, h2]
     try omega)

/-- Lower-casing a character twice is lower-casing it once. -/
theorem toLower_toLower (c : Char) : c.toLower.toLower = c.toLower := by
  unfold Char.toLower
  by_cases h : c.toNat ≥ 65 ∧ c.toNat ≤ 90
  · have hv : (Char.ofNat (c.toNat + 32)).toNat = c.toNat + 32 := by
      have hvalid : (c.toNat + 32).isValidChar := by
        left; omega
      simp only [Char.ofNat, Char.toNat] at hvalid ⊢
      rw [dif_pos hvalid]
      rfl
    simp only [h, and_self, if_true, hv]
    rw [if_neg (by omega)]
  · simp [h]

/-- Lower-casing the ASCII letters of a string twice is lower-casing them once. -/
theorem asciiLower_idem (s : String) : asciiLower (asciiLower s) = asciiLower s := by
  have h : Char.toLower ∘ Char.toLower = Char.toLower := funext toLower_toLower
  simp [asciiLower, h]


/-- C10 (evaluation at the failing input): with the search query `'DEL'` and a ride whose
pickup address is `'Connaught Place, Delhi'`, the filter callback does not keep the
ride: it throws a `ReferenceError`, because it calls `getLocationString` while the
component has not yet evaluated the declaration of that `const`; so it does for every
ride and every non-empty query.  With the binding initialised the search block would
keep the ride, as it would for the query `'vi KUM'`, which occurs in the driver name
`'ravi kumar'` only, and it would drop the ride for the query `'Mumbai'`. -/
theorem search_query_filter_throws :
    Rides.passesFilters sampleBuiltins { Filters.none with searchQuery := "DEL" }
      (.obj sampleSearchRide) = .error .referenceError ∧
    Rides.filteredRides sampleBuiltins { Filters.none with searchQuery := "DEL" }
      [.obj sampleSearchRide] = .error .referenceError ∧
    (∀ (B : Builtins) (q : String) (ride : JSVal), q ≠ "" →
      Rides.passesFilters B { Filters.none with searchQuery := q } ride =
        .error .referenceError) ∧
    Rides.searchMatches sampleBuiltins (some Rides.getLocationString) "DEL"
      (.obj sampleSearchRide) = .ok true ∧
    Rides.searchMatches sampleBuiltins (some Rides.getLocationString) "vi KUM"
      (.obj sampleSearchRide) = .ok true ∧
    Rides.searchMatches sampleBuiltins (some Rides.getLocationString) "Mumbai"
      (.obj sampleSearchRide) = .ok false := by
  refine ⟨rfl, rfl, ?_, rfl, rfl, rfl⟩
  intro B q ride hq
  simp [Rides.passesFilters, Rides.searchMatches, Filters.none, truthy, hq, bind, Except.bind,
    pure, Except.pure, throw, throwThe, MonadExceptOf.throw]

/-- With the binding of `getLocationString` initialised, the search block accepts a ride
whose location strings and car model are strings exactly when the lower-cased query
occurs in the lower-cased pickup location string, dropoff location string, car model or
driver name; two queries that differ only in ASCII letter case give the same result. -/
theorem searchMatches_initialised (B : Builtins) (q : String) (fs : List (String × JSVal))
    (pickup dropoff carModel : String)
    (hp : Rides.getLocationString (lookup "pickupLocation" fs) = .str pickup)
    (hd : Rides.getLocationString (lookup "dropoffLocation" fs) = .str dropoff)
    (hc : jsOr (lookup "carModel" fs) (.str "") = .str carModel)
    (hB : ∀ s, B.toLowerCase (asciiLower s) = B.toLowerCase s) :
    Rides.searchMatches B (some Rides.getLocationString) q (.obj fs) =
      .ok (includes (B.toLowerCase pickup) (B.toLowerCase q) ||
        includes (B.toLowerCase dropoff) (B.toLowerCase q) ||
        includes (B.toLowerCase carModel) (B.toLowerCase q) ||
        includes (Rides.searchDriverName B (lookup "creator" fs)) (B.toLowerCase q)) ∧
    (∀ q', asciiLower q' = asciiLower q →
      Rides.searchMatches B (some Rides.getLocationString) q' (.obj fs) =
        Rides.searchMatches B (some Rides.getLocationString) q (.obj fs)) := by
  have key : ∀ x : String,
      Rides.searchMatches B (some Rides.getLocationString) x (.obj fs) =
      .ok (includes (B.toLowerCase pickup) (B.toLowerCase x) ||
        includes (B.toLowerCase dropoff) (B.toLowerCase x) ||
        includes (B.toLowerCase carModel) (B.toLowerCase x) ||
        includes (Rides.searchDriverName B (lookup "creator" fs)) (B.toLowerCase x)) := by
    intro x
    unfold Rides.searchMatches
    simp only [get_obj, hp, hd, hc, lowerCase, bind, Except.bind, pure, Except.pure]
  refine ⟨key q, ?_⟩
  intro q' heq
  have hl : B.toLowerCase q' = B.toLowerCase q := by
    rw [← hB q', ← hB q, heq]
  rw [key q', key q, hl]

/-! ## Rides: the sort of the ride list -/

/-- How the sort reads the comparator on two numeric keys. -/
theorem staysBefore_keys (B : Builtins) (dir : Int) (ka kb : JSVal) (a b : Int)
    (ha : ka = .num a) (hb : kb = .num b) :
    staysBefore (numMul (jsSub B ka kb) (.num dir)) = decide ((a - b) * dir ≤ 0) := by
  subst ha hb
  simp [jsSub, toNumber, numSub, numMul, staysBefore]

/-- An insertion that completes adds the element and keeps every other one. -/
theorem orderedInsertM_perm (compare : JSVal → JSVal → Except JSError JSVal) (a : JSVal)
    (items inserted : List JSVal) (h : orderedInsertM compare a items = .ok inserted) :
    inserted.Perm (a :: items) := by
  induction items generalizing inserted with
  | nil => simp [orderedInsertM] at h; rw [← h]
  | cons b rest ih =>
    unfold orderedInsertM at h
    cases hc : compare a b with
    | error e => simp [hc] at h
    | ok c =>
      simp only [hc] at h
      by_cases hs : staysBefore c = true
      · simp only [hs, if_true, Except.ok.injEq] at h
        rw [← h]
      · simp only [hs] at h
        cases hr : orderedInsertM compare a rest with
        | error e => simp [hr] at h
        | ok ins =>
          simp only [hr, Bool.false_eq_true, if_false, Except.ok.injEq] at h
          rw [← h]
          exact ((ih ins hr).cons b).trans (List.Perm.swap a b rest)

/-- A sort that completes returns a permutation of the list. -/
theorem jsSortM_perm (compare : JSVal → JSVal → Except JSError JSVal)
    (items sorted : List JSVal) (h : jsSortM compare items = .ok sorted) :
    sorted.Perm items := by
  induction items generalizing sorted with
  | nil => simp [jsSortM] at h; rw [← h]
  | cons a rest ih =>
    unfold jsSortM at h
    cases hr : jsSortM compare rest with
    | error e => simp [hr] at h
    | ok s =>
      simp only [hr] at h
      exact (orderedInsertM_perm compare a s sorted h).trans ((ih s hr).cons a)

/-- An insertion into a list ordered by an integer key, with a comparator that agrees
on the elements with the order of the key, returns a list ordered by the key. -/
theorem orderedInsertM_sorted (compare : JSVal → JSVal → Except JSError JSVal)
    (key : JSVal → Int) (a : JSVal) (items inserted : List JSVal)
    (hcmp : ∀ x ∈ a :: items, ∀ y ∈ a :: items, ∀ c, compare x y = .ok c →
      (staysBefore c = true ↔ key x ≤ key y))
    (hs : items.Pairwise (fun x y => key x ≤ key y))
    (h : orderedInsertM compare a items = .ok inserted) :
    inserted.Pairwise (fun x y => key x ≤ key y) := by
  induction items generalizing inserted with
  | nil => simp [orderedInsertM] at h; rw [← h]; simp
  | cons b rest ih =>
    unfold orderedInsertM at h
    cases hc : compare a b with
    | error e => simp [hc] at h
    | ok c =>
      simp only [hc] at h
      have hab := hcmp a (List.mem_cons_self _ _) b
        (List.mem_cons_of_mem _ (List.mem_cons_self _ _)) c hc
      rw [List.pairwise_cons] at hs
      by_cases hsb : staysBefore c = true
      · simp only [hsb, if_true, Except.ok.injEq] at h
        rw [← h, List.pairwise_cons]
        refine ⟨?_, List.pairwise_cons.mpr hs⟩
        intro y hy
        rcases List.mem_cons.mp hy with rfl | hy
        · exact hab.mp hsb
        · exact le_trans (hab.mp hsb) (hs.1 y hy)
      · simp only [hsb] at h
        cases hr : orderedInsertM compare a rest with
        | error e => simp [hr] at h
        | ok ins =>
          simp only [hr, Bool.false_eq_true, if_false, Except.ok.injEq] at h
          have hlt : key b ≤ key a := by
            have : ¬ key a ≤ key b := fun hle => hsb (hab.mpr hle)
            omega
          have hins := ih ins (fun x hx y hy c hc =>
            hcmp x (by
              rcases List.mem_cons.mp hx with rfl | hx
              · exact List.mem_cons_self _ _
              · exact List.mem_cons_of_mem _ (List.mem_cons_of_mem _ hx)) y (by
              rcases List.mem_cons.mp hy with rfl | hy
              · exact List.mem_cons_self _ _
              · exact List.mem_cons_of_mem _ (List.mem_cons_of_mem _ hy)) c hc) hs.2 hr
          rw [← h, List.pairwise_cons]
          refine ⟨?_, hins⟩
          intro y hy
          rcases List.mem_cons.mp ((orderedInsertM_perm compare a rest ins hr).mem_iff.mp hy)
            with rfl | hy
          · exact hlt
          · exact hs.1 y hy

/-- A sort whose comparator agrees on the list with the order of an integer key returns
the list ordered by that key. -/
theorem jsSortM_sorted (compare : JSVal → JSVal → Except JSError JSVal)
    (key : JSVal → Int) (items sorted : List JSVal)
    (hcmp : ∀ x ∈ items, ∀ y ∈ items, ∀ c, compare x y = .ok c →
      (staysBefore c = true ↔ key x ≤ key y))
    (h : jsSortM compare items = .ok sorted) :
    sorted.Pairwise (fun x y => key x ≤ key y) := by
  induction items generalizing sorted with
  | nil => simp [jsSortM] at h; subst h; simp
  | cons a rest ih =>
    unfold jsSortM at h
    cases hr : jsSortM compare rest with
    | error e => simp [hr] at h
    | ok s =>
      simp only [hr] at h
      have hps := jsSortM_perm compare rest s hr
      have hs := ih s (fun x hx y hy c hc =>
        hcmp x (List.mem_cons_of_mem _ hx) y (List.mem_cons_of_mem _ hy) c hc) hr
      refine orderedInsertM_sorted compare key a s sorted ?_ hs h
      intro x hx y hy c hc
      refine hcmp x ?_ y ?_ c hc
      · rcases List.mem_cons.mp hx with rfl | hx
        · exact List.mem_cons_self _ _
        · exact List.mem_cons_of_mem _ (hps.mem_iff.mp hx)
      · rcases List.mem_cons.mp hy with rfl | hy
        · exact List.mem_cons_self _ _
        · exact List.mem_cons_of_mem _ (hps.mem_iff.mp hy)

/-- An insertion completes when the comparator completes on the element and every
element of the list. -/
theorem orderedInsertM_total (compare : JSVal → JSVal → Except JSError JSVal) (a : JSVal)
    (items : List JSVal) (h : ∀ y ∈ items, ∃ c, compare a y = .ok c) :
    ∃ inserted, orderedInsertM compare a items = .ok inserted := by
  induction items with
  | nil => exact ⟨_, rfl⟩
  | cons b rest ih =>
    obtain ⟨c, hc⟩ := h b (List.mem_cons_self _ _)
    obtain ⟨ins, hi⟩ := ih (fun y hy => h y (List.mem_cons_of_mem _ hy))
    unfold orderedInsertM
    by_cases hs : staysBefore c = true
    · exact ⟨a :: b :: rest, by simp [hc, hs]⟩
    · exact ⟨b :: ins, by simp [hc, hs, hi]⟩

/-- The sort completes when the comparator completes on every two elements. -/
theorem jsSortM_total (compare : JSVal → JSVal → Except JSError JSVal) (items : List JSVal)
    (h : ∀ x ∈ items, ∀ y ∈ items, ∃ c, compare x y = .ok c) :
    ∃ sorted, jsSortM compare items = .ok sorted := by
  induction items with
  | nil => exact ⟨_, rfl⟩
  | cons a rest ih =>
    obtain ⟨s, hs⟩ := ih (fun x hx y hy =>
      h x (List.mem_cons_of_mem _ hx) y (List.mem_cons_of_mem _ hy))
    have hps := jsSortM_perm compare rest s hs
    obtain ⟨ins, hi⟩ := orderedInsertM_total compare a s (fun y hy =>
      h a (List.mem_cons_self _ _) y (List.mem_cons_of_mem _ (hps.mem_iff.mp hy)))
    exact ⟨ins, by simp [jsSortM, hs, hi]⟩

/-- The comparator completes on two rides neither of which is `null` or `undefined`. -/
theorem compareRides_total (B : Builtins) (filters : Filters) (a b : JSVal)
    (ha : nullish a = false) (hb : nullish b = false) :
    ∃ c, Rides.compareRides B filters a b = .ok c := by
  unfold Rides.compareRides
  simp only [get_of_not_nullish a _ ha, get_of_not_nullish b _ hb, bind, Except.bind, pure,
    Except.pure]
  repeat' split
  all_goals exact ⟨_, rfl⟩

/-- For `sortBy` `'price'` a comparator call that completes returns the difference of
`price || 0`, times the direction. -/
theorem compareRides_price (B : Builtins) (filters : Filters) (a b c : JSVal)
    (hby : filters.sortBy = "price") (h : Rides.compareRides B filters a b = .ok c) :
    c = numMul (jsSub B (Rides.sortPrice a) (Rides.sortPrice b))
      (if filters.sortDirection = "desc" then .num (-1) else .num 1) := by
  unfold Rides.compareRides at h
  have t1 : truthy (.str "price") = true := by decide
  have s1 : strictEq (.str "price") (.str "departureTime") = false := by decide
  have s2 : strictEq (.str "price") (.str "price") = true := by decide
  simp only [hby, jsOr, t1, s1, s2, if_true, Bool.false_eq_true, if_false, bind, Except.bind,
    pure, Except.pure] at h
  cases ha : a.get "price" with
  | error e => simp [ha] at h
  | ok pa =>
    cases hb : b.get "price" with
    | error e => simp [ha, hb] at h
    | ok pb =>
      simp only [ha, hb, Except.ok.injEq] at h
      rw [← h]
      simp only [Rides.sortPrice, optGet_of_get _ _ _ ha, optGet_of_get _ _ _ hb, jsOr]

/-- Reading a property of `null` or `undefined` throws. -/
theorem get_nullish (v : JSVal) (k : String) (h : nullish v = true) :
    v.get k = .error .typeError := by
  cases v <;> simp_all [nullish, JSVal.get]

/-- For `sortBy` `'seats'` a comparator call that completes returns the difference of
`availableSeats || seatsAvailable || 0`, times the direction. -/
theorem compareRides_seats (B : Builtins) (filters : Filters) (a b c : JSVal)
    (hby : filters.sortBy = "seats") (h : Rides.compareRides B filters a b = .ok c) :
    c = numMul (jsSub B (Rides.displayedSeats a) (Rides.displayedSeats b))
      (if filters.sortDirection = "desc" then .num (-1) else .num 1) := by
  unfold Rides.compareRides at h
  have t1 : truthy (.str "seats") = true := by decide
  have s1 : strictEq (.str "seats") (.str "departureTime") = false := by decide
  have s2 : strictEq (.str "seats") (.str "price") = false := by decide
  have s3 : strictEq (.str "seats") (.str "seats") = true := by decide
  cases hna : nullish a with
  | true =>
    simp [hby, jsOr, t1, s1, s2, s3, get_nullish a _ hna, bind, Except.bind] at h
  | false =>
    cases hnb : nullish b with
    | true =>
      simp only [hby, jsOr, t1, s1, s2, s3, get_of_not_nullish a _ hna, get_nullish b _ hnb,
        if_true, Bool.false_eq_true, if_false, bind, Except.bind, pure, Except.pure] at h
      split at h <;> simp at h
    | false =>
      simp only [hby, jsOr, t1, s1, s2, s3, get_of_not_nullish a _ hna,
        get_of_not_nullish b _ hnb, if_true, Bool.false_eq_true, if_false, bind, Except.bind,
        pure, Except.pure] at h
      unfold Rides.displayedSeats jsOr
      by_cases h1 : truthy (a.optGet "availableSeats") = true <;>
        by_cases h2 : truthy (b.optGet "availableSeats") = true <;>
        simp only [h1, h2, if_true, Bool.false_eq_true, if_false, Except.ok.injEq] at h ⊢ <;>
        rw [← h]

/-- C11: on a list of rides none of which is `null` or `undefined` and on which the
filter callback completes, `filteredRides` returns a permutation of the rides that pass
the filters; for `sortBy` `'price'` (a missing price as 0) and `'seats'`
(`availableSeats`, else `seatsAvailable`, else 0), on rides whose key is a number, the
keys of consecutive rides are non-decreasing for `sortDirection` `'asc'` and
non-increasing for `'desc'`. -/
theorem filteredRides_sorted (B : Builtins) (filters : Filters) (rides : List JSVal)
    (p : JSVal → Bool) (hnull : ∀ r ∈ rides, nullish r = false)
    (hpass : ∀ r ∈ rides, Rides.passesFilters B filters r = .ok (p r)) :
    ∃ kept, Rides.filteredRides B filters rides = .ok kept ∧
      kept.Perm (rides.filter p) ∧
      (filters.sortBy = "price" → (∀ r ∈ rides, ∃ k, Rides.sortPrice r = .num k) →
        (filters.sortDirection = "asc" →
          kept.Chain' (fun a b => numLe (Rides.sortPrice a) (Rides.sortPrice b) = true)) ∧
        (filters.sortDirection = "desc" →
          kept.Chain' (fun a b => numLe (Rides.sortPrice b) (Rides.sortPrice a) = true))) ∧
      (filters.sortBy = "seats" → (∀ r ∈ rides, ∃ k, Rides.displayedSeats r = .num k) →
        (filters.sortDirection = "asc" →
          kept.Chain' (fun a b =>
            numLe (Rides.displayedSeats a) (Rides.displayedSeats b) = true)) ∧
        (filters.sortDirection = "desc" →
          kept.Chain' (fun a b =>
            numLe (Rides.displayedSeats b) (Rides.displayedSeats a) = true))) := by
  obtain ⟨kept, hk⟩ := jsSortM_total (Rides.compareRides B filters) (rides.filter p)
    (fun x hx y hy => compareRides_total B filters x y
      (hnull x (List.mem_filter.mp hx).1) (hnull y (List.mem_filter.mp hy).1))
  have hperm : kept.Perm (rides.filter p) := jsSortM_perm _ _ _ hk
  have hmem : ∀ r ∈ kept, r ∈ rides :=
    fun r hr => (List.mem_filter.mp (hperm.mem_iff.mp hr)).1
  -- the generic argument for a key and a direction
  have main : ∀ (keyOf : JSVal → JSVal) (dir : Int),
      (∀ a b c, Rides.compareRides B filters a b = .ok c →
        c = numMul (jsSub B (keyOf a) (keyOf b)) (.num dir)) →
      (∀ r ∈ rides, ∃ k, keyOf r = .num k) → (dir = 1 ∨ dir = -1) →
      kept.Chain' (fun a b => if dir = 1 then numLe (keyOf a) (keyOf b) = true
          else numLe (keyOf b) (keyOf a) = true) := by
    intro keyOf dir hcmp hnum hdir
    have hpw := jsSortM_sorted (Rides.compareRides B filters)
      (fun r => numKey (keyOf r) * dir) (rides.filter p) kept (by
        intro a ha b hb c hc
        obtain ⟨ka, hka⟩ := hnum a (List.mem_filter.mp ha).1
        obtain ⟨kb, hkb⟩ := hnum b (List.mem_filter.mp hb).1
        rw [hcmp a b c hc, staysBefore_keys B dir _ _ ka kb hka hkb]
        simp only [hka, hkb, numKey, decide_eq_true_eq]
        rcases hdir with h | h <;> subst h <;> constructor <;> intro h <;> omega) hk
    refine (hpw.imp_of_mem ?_).chain'
    intro a b ha hb hab
    obtain ⟨ka, hka⟩ := hnum a (hmem a ha)
    obtain ⟨kb, hkb⟩ := hnum b (hmem b hb)
    simp only [hka, hkb, numKey] at hab ⊢
    rcases hdir with h | h <;> subst h <;> simp [numLe] <;> omega
  refine ⟨kept, ?_, hperm, ?_, ?_⟩
  · simp [Rides.filteredRides, filterM_eq_filter _ p rides hpass, hk, bind, Except.bind]
  · intro hby hnum
    constructor
    · intro hdir
      have := main Rides.sortPrice 1 (by
        intro a b c hc
        have := compareRides_price B filters a b c hby hc
        simpa [hdir] using this) hnum (Or.inl rfl)
      simpa using this
    · intro hdir
      have := main Rides.sortPrice (-1) (by
        intro a b c hc
        have := compareRides_price B filters a b c hby hc
        simpa [hdir] using this) hnum (Or.inr rfl)
      simpa using this
  · intro hby hnum
    constructor
    · intro hdir
      have := main Rides.displayedSeats 1 (by
        intro a b c hc
        have := compareRides_seats B filters a b c hby hc
        simpa [hdir] using this) hnum (Or.inl rfl)
      simpa using this
    · intro hdir
      have := main Rides.displayedSeats (-1) (by
        intro a b c hc
        have := compareRides_seats B filters a b c hby hc
        simpa [hdir] using this) hnum (Or.inr rfl)
      simpa using this

/-- The statement of C11 on three rides sorted by price, descending. -/
theorem filteredRides_sorted_witness :
    (∀ r ∈ sampleSortRides, nullish r = false) ∧
    (∀ r ∈ sampleSortRides, Rides.passesFilters sampleBuiltins
      { Filters.none with sortBy := "price", sortDirection := "desc" } r = .ok true) ∧
    Rides.filteredRides sampleBuiltins
        { Filters.none with sortBy := "price", sortDirection := "desc" } sampleSortRides =
      .ok [.obj [("id", .str "a"), ("price", .num 30), ("availableSeats", .num 2)],
           .obj [("id", .str "c"), ("price", .num 10), ("availableSeats", .num 1)],
           .obj [("id", .str "b"), ("seatsAvailable", .num 4)]] ∧
    Rides.filteredRides sampleBuiltins
        { Filters.none with sortBy := "seats", sortDirection := "asc" } sampleSortRides =
      .ok [.obj [("id", .str "c"), ("price", .num 10), ("availableSeats", .num 1)],
           .obj [("id", .str "a"), ("price", .num 30), ("availableSeats", .num 2)],
           .obj [("id", .str "b"), ("seatsAvailable", .num 4)]] ∧
    ∃ kept, Rides.filteredRides sampleBuiltins
        { Filters.none with sortBy := "price", sortDirection := "desc" } sampleSortRides =
          .ok kept ∧
      kept.Perm (sampleSortRides.filter (fun _ => true)) ∧
      (("price" : String) = "price" →
        (∀ r ∈ sampleSortRides, ∃ k, Rides.sortPrice r = .num k) →
        (("desc" : String) = "asc" →
          kept.Chain' (fun a b => numLe (Rides.sortPrice a) (Rides.sortPrice b) = true)) ∧
        (("desc" : String) = "desc" →
          kept.Chain' (fun a b => numLe (Rides.sortPrice b) (Rides.sortPrice a) = true))) ∧
      (("price" : String) = "seats" →
        (∀ r ∈ sampleSortRides, ∃ k, Rides.displayedSeats r = .num k) →
        (("desc" : String) = "asc" →
          kept.Chain' (fun a b =>
            numLe (Rides.displayedSeats a) (Rides.displayedSeats b) = true)) ∧
        (("desc" : String) = "desc" →
          kept.Chain' (fun a b =>
            numLe (Rides.displayedSeats b) (Rides.displayedSeats a) = true))) :=
  have hn : ∀ r ∈ sampleSortRides, nullish r = false := by
    intro r hr
    simp only [sampleSortRides, List.mem_cons, List.mem_singleton, List.not_mem_nil,
      or_false] at hr
    rcases hr with rfl | rfl | rfl <;> rfl
  have hp : ∀ r ∈ sampleSortRides, Rides.passesFilters sampleBuiltins
      { Filters.none with sortBy := "price", sortDirection := "desc" } r = .ok true := by
    intro r hr
    simp only [sampleSortRides, List.mem_cons, List.mem_singleton, List.not_mem_nil,
      or_false] at hr
    rcases hr with rfl | rfl | rfl <;> rfl
  ⟨hn, hp, rfl, rfl, filteredRides_sorted sampleBuiltins
    { Filters.none with sortBy := "price", sortDirection := "desc" } sampleSortRides
    (fun _ => true) hn hp⟩

/-- A `null` ride in the list reaches the comparator when no filter is set, and the
comparator throws on it. -/
theorem filteredRides_null_ride_throws :
    Rides.filteredRides sampleBuiltins { Filters.none with sortBy := "price" }
      [.null, .obj [("price", .num 5)]] = .error .typeError := rfl

/-! ## Reverse geocoding with the location cache -/

/-- C12: for a two-element coordinates array whose key already has a truthy address in
the location cache, `getLocationNameFromCoordinates` (of `MyRides` and of
`RideRequests`) returns that address, issues no request and leaves the cache as it
is, whatever the API key is. -/
theorem cached_address_is_returned (B : Builtins) (apiKey : JSVal)
    (locationCache : List (String × JSVal)) (outcome : Except JSVal JSVal) (lng lat : JSVal)
    (h : truthy (lookup (jsJoin B "," [lng, lat]) locationCache) = true) :
    (MyRides.getLocationNameFromCoordinates B apiKey locationCache outcome
        (.arr [lng, lat])).result = lookup (jsJoin B "," [lng, lat]) locationCache ∧
    (MyRides.getLocationNameFromCoordinates B apiKey locationCache outcome
        (.arr [lng, lat])).requested = false ∧
    (MyRides.getLocationNameFromCoordinates B apiKey locationCache outcome
        (.arr [lng, lat])).cache = locationCache ∧
    (RideRequests.getLocationNameFromCoordinates B apiKey locationCache outcome
        (.arr [lng, lat])).result = lookup (jsJoin B "," [lng, lat]) locationCache ∧
    (RideRequests.getLocationNameFromCoordinates B apiKey locationCache outcome
        (.arr [lng, lat])).requested = false ∧
    (RideRequests.getLocationNameFromCoordinates B apiKey locationCache outcome
        (.arr [lng, lat])).cache = locationCache := by
  simp [MyRides.getLocationNameFromCoordinates, RideRequests.getLocationNameFromCoordinates, h]

/-- The statement of C12 on a cache that holds the key `77,28`, with no API key. -/
theorem cached_address_is_returned_witness :
    truthy (lookup (jsJoin sampleBuiltins "," [.num 77, .num 28]) sampleLocationCache) =
      true ∧
    (MyRides.getLocationNameFromCoordinates sampleBuiltins .undefined sampleLocationCache
        (.ok sampleGeocodingBody) (.arr [.num 77, .num 28])).result =
      .str "New Delhi, Delhi" ∧
    (MyRides.getLocationNameFromCoordinates sampleBuiltins .undefined sampleLocationCache
        (.ok sampleGeocodingBody) (.arr [.num 77, .num 28])).requested = false ∧
    (MyRides.getLocationNameFromCoordinates sampleBuiltins .undefined sampleLocationCache
        (.ok sampleGeocodingBody) (.arr [.num 77, .num 28])).cache = sampleLocationCache :=
  ⟨rfl, rfl,
    (cached_address_is_returned sampleBuiltins .undefined sampleLocationCache
      (.ok sampleGeocodingBody) (.num 77) (.num 28) rfl).2.1,
    (cached_address_is_returned sampleBuiltins .undefined sampleLocationCache
      (.ok sampleGeocodingBody) (.num 77) (.num 28) rfl).2.2.1⟩

/-- The cache after a call differs from the cache before it at most at the key of the
coordinates. -/
theorem geocoding_frame (B : Builtins) (apiKey : JSVal)
    (locationCache : List (String × JSVal)) (outcome : Except JSVal JSVal) (items : List JSVal)
    (k : String) (hk : k ≠ jsJoin B "," items) :
    lookup k (MyRides.getLocationNameFromCoordinates B apiKey locationCache outcome
      (.arr items)).cache = lookup k locationCache := by
  unfold MyRides.getLocationNameFromCoordinates
  simp only
  repeat' split
  all_goals first | rfl | exact lookup_assign_other _ _ _ _ hk

/-- C20: when the key of the coordinates is not yet cached, a successful geocoding
result (status `'OK'`, a non-empty results array) makes the function return the
formatted address of the first result and makes the cache map the key to that address,
every other key keeping its value; an invalid coordinates value, a missing API key, a
network error, a status other than `'OK'` and an empty results array each leave the
cache unchanged and make the function return `null`. -/
theorem geocoding_cache_update (B : Builtins) (locationCache : List (String × JSVal))
    (lng lat : JSVal)
    (hmiss : truthy (lookup (jsJoin B "," [lng, lat]) locationCache) = false) :
    (∀ (apiKey first : JSVal) (rest : List JSVal) (fields : List (String × JSVal)),
      truthy apiKey = true → lookup "status" fields = .str "OK" →
      lookup "results" fields = .arr (first :: rest) → nullish first = false →
      (MyRides.getLocationNameFromCoordinates B apiKey locationCache (.ok (.obj fields))
          (.arr [lng, lat])).result = first.optGet "formatted_address" ∧
      (MyRides.getLocationNameFromCoordinates B apiKey locationCache (.ok (.obj fields))
          (.arr [lng, lat])).cache =
        assign (jsJoin B "," [lng, lat]) (first.optGet "formatted_address") locationCache ∧
      lookup (jsJoin B "," [lng, lat])
          (MyRides.getLocationNameFromCoordinates B apiKey locationCache (.ok (.obj fields))
            (.arr [lng, lat])).cache = first.optGet "formatted_address" ∧
      (∀ k, k ≠ jsJoin B "," [lng, lat] →
        lookup k (MyRides.getLocationNameFromCoordinates B apiKey locationCache
          (.ok (.obj fields)) (.arr [lng, lat])).cache = lookup k locationCache)) ∧
    (∀ (apiKey : JSVal) (outcome : Except JSVal JSVal) (coordinates : JSVal),
      (∀ a b, coordinates ≠ .arr [a, b]) →
      (MyRides.getLocationNameFromCoordinates B apiKey locationCache outcome
          coordinates).result = .null ∧
      (MyRides.getLocationNameFromCoordinates B apiKey locationCache outcome
          coordinates).cache = locationCache) ∧
    (∀ (apiKey : JSVal) (outcome : Except JSVal JSVal), truthy apiKey = false →
      (MyRides.getLocationNameFromCoordinates B apiKey locationCache outcome
          (.arr [lng, lat])).result = .null ∧
      (MyRides.getLocationNameFromCoordinates B apiKey locationCache outcome
          (.arr [lng, lat])).cache = locationCache) ∧
    (∀ (apiKey error : JSVal),
      (MyRides.getLocationNameFromCoordinates B apiKey locationCache (.error error)
          (.arr [lng, lat])).result = .null ∧
      (MyRides.getLocationNameFromCoordinates B apiKey locationCache (.error error)
          (.arr [lng, lat])).cache = locationCache) ∧
    (∀ (apiKey : JSVal) (fields : List (String × JSVal)),
      (strictEq (lookup "status" fields) (.str "OK") = false ∨
        lookup "results" fields = .arr []) →
      (MyRides.getLocationNameFromCoordinates B apiKey locationCache (.ok (.obj fields))
          (.arr [lng, lat])).result = .null ∧
      (MyRides.getLocationNameFromCoordinates B apiKey locationCache (.ok (.obj fields))
          (.arr [lng, lat])).cache = locationCache) := by
  refine ⟨?_, ?_, ?_, ?_, ?_⟩
  · intro apiKey first rest fields hkey hstatus hresults hfirst
    have hf : formattedAddress B (.obj fields) = .ok (some (first.optGet "formatted_address")) := by
      simp [formattedAddress, get_obj, hstatus, hresults, strictEq, truthy, jsLength, jsGt,
        toNumber, numLt, firstElement, get_of_not_nullish first _ hfirst, bind, Except.bind,
        pure, Except.pure]
    have hrun : MyRides.getLocationNameFromCoordinates B apiKey locationCache
        (.ok (.obj fields)) (.arr [lng, lat]) =
        { result := first.optGet "formatted_address", requested := true,
          cache := assign (jsJoin B "," [lng, lat]) (first.optGet "formatted_address")
            locationCache } := by
      simp [MyRides.getLocationNameFromCoordinates, hmiss, hkey, hf]
    rw [hrun]
    exact ⟨rfl, rfl, lookup_assign_same _ _ _, fun k hk => lookup_assign_other _ _ _ _ hk⟩
  · intro apiKey outcome coordinates hbad
    unfold MyRides.getLocationNameFromCoordinates
    cases coordinates with
    | arr items =>
      by_cases hl : items.length = 2
      · exfalso
        match items, hl with
        | [a, b], _ => exact hbad a b rfl
      · simp [hl]
    | _ => exact ⟨rfl, rfl⟩
  · intro apiKey outcome hkey
    simp [MyRides.getLocationNameFromCoordinates, hmiss, hkey]
  · intro apiKey error
    by_cases hkey : truthy apiKey = true <;>
      simp [MyRides.getLocationNameFromCoordinates, hmiss, hkey]
  · intro apiKey fields hfail
    have hf : formattedAddress B (.obj fields) = .ok none := by
      rcases hfail with h | h
      · simp [formattedAddress, get_obj, h, bind, Except.bind, pure, Except.pure]
      · by_cases hs : strictEq (lookup "status" fields) (.str "OK") = true <;>
          simp [formattedAddress, get_obj, h, hs, truthy, jsLength, jsGt, toNumber, numLt,
            bind, Except.bind, pure, Except.pure]
    by_cases hkey : truthy apiKey = true <;>
      simp [MyRides.getLocationNameFromCoordinates, hmiss, hkey, hf]

/-- The statement of C20 on a cache that does not hold the key `73,18`. -/
theorem geocoding_cache_update_witness :
    truthy (lookup (jsJoin sampleBuiltins "," [.num 73, .num 18]) sampleLocationCache) =
      false ∧
    (MyRides.getLocationNameFromCoordinates sampleBuiltins (.str "key") sampleLocationCache
        (.ok sampleGeocodingBody) (.arr [.num 73, .num 18])).result =
      .str "Pune, Maharashtra" ∧
    (MyRides.getLocationNameFromCoordinates sampleBuiltins (.str "key") sampleLocationCache
        (.ok sampleGeocodingBody) (.arr [.num 73, .num 18])).cache =
      [("72,19", .str "Mumbai, Maharashtra"), ("77,28", .str "New Delhi, Delhi"),
       ("73,18", .str "Pune, Maharashtra")] ∧
    (∀ (apiKey error : JSVal),
      (MyRides.getLocationNameFromCoordinates sampleBuiltins apiKey sampleLocationCache
          (.error error) (.arr [.num 73, .num 18])).result = .null ∧
      (MyRides.getLocationNameFromCoordinates sampleBuiltins apiKey sampleLocationCache
          (.error error) (.arr [.num 73, .num 18])).cache = sampleLocationCache) :=
  ⟨rfl, rfl, rfl,
    (geocoding_cache_update sampleBuiltins sampleLocationCache (.num 73) (.num 18)
      rfl).2.2.2.1⟩

/-! ## RideDetail: who may request and who may rate a ride -/

/-- Strict equality with a string holds exactly for that string. -/
theorem strictEq_str_iff (v : JSVal) (s : String) :
    strictEq v (.str s) = true ↔ v = .str s := by
  cases v <;> simp [strictEq]

/-- For seat counts that are absent or not negative, one of the two fields is above zero
exactly when the displayed seat count is. -/
theorem seats_offered_iff (B : Builtins) (a s : JSVal) (ha : isSeatCount a = true)
    (hs : isSeatCount s = true) :
    (jsGt B a (.num 0) || jsGt B s (.num 0)) = numLt (.num 0) (jsOr (jsOr a s) (.num 0)) := by
  cases a with
  | num n =>
    by_cases hn : n = 0
    · subst hn
      cases s with
      | num m =>
        by_cases hm : m = 0
        · subst hm; simp [jsGt, toNumber, numLt, jsOr, truthy]
        · simp [jsGt, toNumber, numLt, jsOr, truthy, hm]
      | _ => simp_all [isSeatCount, jsGt, toNumber, numLt, jsOr, truthy]
    · have hpos : 0 < n := by
        simp [isSeatCount] at ha
        omega
      simp [jsGt, toNumber, numLt, jsOr, truthy, hn, hpos]
  | undefined =>
    cases s with
    | num m =>
      by_cases hm : m = 0
      · subst hm; simp [jsGt, toNumber, numLt, jsOr, truthy]
      · simp [jsGt, toNumber, numLt, jsOr, truthy, hm]
    | _ => simp_all [isSeatCount, jsGt, toNumber, numLt, jsOr, truthy]
  | null =>
    cases s with
    | num m =>
      by_cases hm : m = 0
      · subst hm; simp [jsGt, toNumber, numLt, jsOr, truthy]
      · simp [jsGt, toNumber, numLt, jsOr, truthy, hm]
    | _ => simp_all [isSeatCount, jsGt, toNumber, numLt, jsOr, truthy]
  | _ => simp [isSeatCount] at ha

/-- The conditions of `canRequestRide` in terms of `isCurrentUserDriver`: for a ride
whose seat counts are absent or integers that are not negative, `canRequestRide()` is
truthy exactly when a user is logged in, `isCurrentUserDriver()` is false, there is no
request status, the ride is neither cancelled nor completed, and the seat count the page
displays is greater than zero. -/
theorem canRequestRide_iff (B : Builtins) (user ride requestStatus : JSVal)
    (ha : isSeatCount (ride.optGet "availableSeats") = true)
    (hs : isSeatCount (ride.optGet "seatsAvailable") = true) :
    truthy (RideDetail.canRequestRide B user ride requestStatus) = true ↔
      (truthy user = true ∧ RideDetail.isCurrentUserDriver user ride = false ∧
        truthy requestStatus = false ∧
        ride.optGet "status" ≠ .str "cancelled" ∧ ride.optGet "status" ≠ .str "completed" ∧
        numLt (.num 0) (RideDetail.displayedSeats ride) = true) := by
  unfold RideDetail.canRequestRide RideDetail.isRideCancelled RideDetail.isRideCompleted
    RideDetail.displayedSeats
  have hc := strictEq_str_iff (ride.optGet "status") "cancelled"
  have hd := strictEq_str_iff (ride.optGet "status") "completed"
  have tb : ∀ b, truthy (.bool b) = b := fun _ => rfl
  have hseats := seats_offered_iff B _ _ ha hs
  by_cases hu : truthy user = true
  · by_cases hdrv : RideDetail.isCurrentUserDriver user ride = true
    · simp [hu, hdrv, tb]
    · by_cases hr : truthy requestStatus = true
      · simp [hu, hdrv, hr, tb]
      · by_cases hride : truthy ride = true
        · by_cases h1 : strictEq (ride.optGet "status") (.str "cancelled") = true
          · have e1 := hc.mp h1
            simp [hu, hdrv, hr, hride, tb, e1, strictEq]
          · by_cases h2 : strictEq (ride.optGet "status") (.str "completed") = true
            · have e2 := hd.mp h2
              simp [hu, hdrv, hr, hride, tb, e2, strictEq]
            · have n1 : ride.optGet "status" ≠ .str "cancelled" := fun h => h1 (hc.mpr h)
              have n2 : ride.optGet "status" ≠ .str "completed" := fun h => h2 (hd.mpr h)
              simp [hu, hdrv, hr, hride, h1, h2, tb, n1, n2, hseats]
        · have hav : ride.optGet "availableSeats" = .undefined := by
            cases ride <;> simp_all [truthy, JSVal.optGet]
          have hsa : ride.optGet "seatsAvailable" = .undefined := by
            cases ride <;> simp_all [truthy, JSVal.optGet]
          have tu : truthy .undefined = false := rfl
          have tn : truthy (.num 0) = false := rfl
          simp [hu, hdrv, hr, hride, hav, hsa, jsOr, tu, tn, numLt]
  · simp [hu, tb]

/-- The conditions of `canRequestRide` on a ride of another driver with two seats left. -/
theorem canRequestRide_iff_witness :
    isSeatCount (sampleOpenRide.optGet "availableSeats") = true ∧
    isSeatCount (sampleOpenRide.optGet "seatsAvailable") = true ∧
    RideDetail.canRequestRide sampleBuiltins userWithId sampleOpenRide .null = .bool true ∧
    (truthy (RideDetail.canRequestRide sampleBuiltins userWithId sampleOpenRide .null) = true ↔
      (truthy userWithId = true ∧ RideDetail.isCurrentUserDriver userWithId sampleOpenRide = false ∧
        truthy .null = false ∧
        sampleOpenRide.optGet "status" ≠ .str "cancelled" ∧
        sampleOpenRide.optGet "status" ≠ .str "completed" ∧
        numLt (.num 0) (RideDetail.displayedSeats sampleOpenRide) = true)) :=
  ⟨rfl, rfl, rfl, canRequestRide_iff sampleBuiltins userWithId sampleOpenRide .null rfl rfl⟩

/-- The conditions of `canRateRide` in terms of `isCurrentUserDriver`: `canRateRide()` is
truthy exactly when a user is logged in, `isCurrentUserDriver()` is false, the status of
the ride is `'completed'` and the request status is `'confirmed'`. -/
theorem canRateRide_iff (user ride requestStatus : JSVal) :
    truthy (RideDetail.canRateRide user ride requestStatus) = true ↔
      (truthy user = true ∧ RideDetail.isCurrentUserDriver user ride = false ∧
        ride.optGet "status" = .str "completed" ∧ requestStatus = .str "confirmed") := by
  unfold RideDetail.canRateRide RideDetail.isRideCompleted
  have hd := strictEq_str_iff (ride.optGet "status") "completed"
  have hr := strictEq_str_iff requestStatus "confirmed"
  have tb : ∀ b, truthy (.bool b) = b := fun _ => rfl
  by_cases hu : truthy user = true
  · by_cases hdrv : RideDetail.isCurrentUserDriver user ride = true
    · simp [hu, hdrv, tb]
    · by_cases hride : truthy ride = true
      · by_cases h2 : strictEq (ride.optGet "status") (.str "completed") = true
        · have e2 := hd.mp h2
          have hcc : strictEq (.str "completed") (.str "completed") = true := rfl
          simp [hu, hdrv, hride, tb, hr, e2, hcc]
        · have n2 : ride.optGet "status" ≠ .str "completed" := fun h => h2 (hd.mpr h)
          simp [hu, hdrv, hride, tb, h2, n2]
      · have hst : ride.optGet "status" = .undefined := by
          cases ride <;> simp_all [truthy, JSVal.optGet]
        simp [hu, hdrv, hride, hst]
  · simp [hu, tb]

/-! ## RideCard.handleRequestRide -/

/-- C15 (evaluation at the failing input): for the authenticated user `u1` and a ride
whose creator is the object `{ _id: 'u1', ... }`, `handleRequestRide` calls
`rides.requestRide` and shows no error: `creatorId` is `ride.creator?.id || ride.creator`,
the creator object itself, which is not the user's id. -/
theorem own_ride_by_underscore_id_is_requested :
    RideCard.handleRequestRide (.bool true) userWithId rideOfUserByUnderscoreId false none =
      .ok [.setLoading true, .ridesRequestRide (.str "r1"),
        .toastSuccess "Ride requested successfully!", .setLoading false] ∧
    (rideOfUserByUnderscoreId.optGet "creator").optGet "_id" = userWithId.optGet "id" ∧
    RideDetail.isCurrentUserDriver userWithId rideOfUserByUnderscoreId = true := by
  refine ⟨rfl, rfl, rfl⟩

/-- For an authenticated user with a string id, a ride whose creator is that id string, or
an object whose `id` is that id, is refused with the error and `rides.requestRide` is
not called. -/
theorem own_ride_by_id_is_refused (isAuthenticated : JSVal) (uid : String)
    (us fs cs : List (String × JSVal)) (hasOnRequest : Bool) (outcome : Option JSVal)
    (ha : truthy isAuthenticated = true) (hne : uid ≠ "")
    (hu : lookup "id" us = .str uid)
    (hc : lookup "creator" fs = .str uid ∨
      (lookup "creator" fs = .obj cs ∧ lookup "id" cs = .str uid)) :
    RideCard.handleRequestRide isAuthenticated (.obj us) (.obj fs) hasOnRequest outcome =
      .ok [.toastError (.str "You can't request your own ride!")] := by
  unfold RideCard.handleRequestRide
  have t1 : truthy (.str uid) = true := by simp [truthy, hne]
  have t2 : truthy (.obj us) = true := rfl
  have t3 : truthy .undefined = false := rfl
  have t4 : strictEq (.str uid) (.str uid) = true := by simp [strictEq]
  rcases hc with h | ⟨h, h'⟩
  · have e : (JSVal.str uid).optGet "id" = .undefined := rfl
    simp [ha, get_obj, optGet_obj, h, hu, e, jsOr, t1, t2, t3, t4, bind, Except.bind, pure,
      Except.pure]
  · simp [ha, get_obj, optGet_obj, h, h', hu, jsOr, t1, t2, t4, bind, Except.bind, pure,
      Except.pure]

/-! ## EditRide.fetchRideDetails -/

/-- The two outcomes of the ownership test: for a loaded ride on which the test
completes, `fetchRideDetails` of `EditRide` calls `setFormData` only when the test
passes, and then with the form data of the ride; otherwise it sets the error
`'You are not authorized to edit this ride'`, the form data keeps its initial value and
the page renders the error view instead of the form. -/
theorem only_owner_populates_form (B : Builtins) (user response rideData : JSVal)
    (owner : Bool) (hl : EditRide.loadedRide response = .ok rideData)
    (ho : EditRide.isOwner user rideData = .ok owner) :
    (setsFormData (EditRide.fetchRideDetailsResolved B user response) = true → owner = true) ∧
    (owner = false →
      EditRide.fetchRideDetailsResolved B user response =
        [.setLoading true, .setError .null, .setState "ride" rideData,
         .setError (.str "You are not authorized to edit this ride"), .setLoading false] ∧
      ((EditRide.fetchRideDetailsResolved B user response).foldl EditRide.State.apply
          EditRide.State.initial).formData = EditRide.initialFormData ∧
      EditRide.view ((EditRide.fetchRideDetailsResolved B user response).foldl
          EditRide.State.apply EditRide.State.initial) =
        .error (.str "You are not authorized to edit this ride")) ∧
    (owner = true → ∀ formData, EditRide.rideFormData B rideData = .ok formData →
      EditRide.fetchRideDetailsResolved B user response =
        [.setLoading true, .setError .null, .setState "ride" rideData,
         .setState "formData" formData, .setLoading false] ∧
      ((EditRide.fetchRideDetailsResolved B user response).foldl EditRide.State.apply
          EditRide.State.initial).formData = formData ∧
      EditRide.view ((EditRide.fetchRideDetailsResolved B user response).foldl
          EditRide.State.apply EditRide.State.initial) = .form) := by
  cases owner with
  | false =>
    have hrun : EditRide.fetchRideDetailsResolved B user response =
        [.setLoading true, .setError .null, .setState "ride" rideData,
         .setError (.str "You are not authorized to edit this ride"), .setLoading false] := by
      simp [EditRide.fetchRideDetailsResolved, EditRide.fetchRideDetailsTry, hl, ho]
    refine ⟨?_, fun _ => ⟨hrun, ?_, ?_⟩, fun h => by simp at h⟩
    · rw [hrun]; simp [setsFormData]
    · rw [hrun]; rfl
    · rw [hrun]; rfl
  | true =>
    refine ⟨fun _ => rfl, fun h => by simp at h, fun _ formData hf => ?_⟩
    have hrun : EditRide.fetchRideDetailsResolved B user response =
        [.setLoading true, .setError .null, .setState "ride" rideData,
         .setState "formData" formData, .setLoading false] := by
      simp [EditRide.fetchRideDetailsResolved, EditRide.fetchRideDetailsTry, hl, ho, hf]
    refine ⟨hrun, ?_, ?_⟩
    · rw [hrun]; rfl
    · rw [hrun]; rfl

/-- The outcome of the ownership test on the ride of the user `u9`, opened by the user
`u1`. -/
theorem only_owner_populates_form_witness :
    EditRide.loadedRide sampleRideResponse = .ok sampleOpenRide ∧
    EditRide.isOwner userWithId sampleOpenRide = .ok false ∧
    EditRide.fetchRideDetailsResolved sampleBuiltins userWithId sampleRideResponse =
      [.setLoading true, .setError .null, .setState "ride" sampleOpenRide,
       .setError (.str "You are not authorized to edit this ride"), .setLoading false] ∧
    ((EditRide.fetchRideDetailsResolved sampleBuiltins userWithId sampleRideResponse).foldl
        EditRide.State.apply EditRide.State.initial).formData = EditRide.initialFormData ∧
    EditRide.view ((EditRide.fetchRideDetailsResolved sampleBuiltins userWithId
        sampleRideResponse).foldl EditRide.State.apply EditRide.State.initial) =
      .error (.str "You are not authorized to edit this ride") :=
  ⟨rfl, rfl,
    (only_owner_populates_form sampleBuiltins userWithId sampleRideResponse sampleOpenRide
      false rfl rfl).2.1 rfl⟩

/-! ## getLocationString of MyRides and RideRequests -/

/-- A text field is truthy exactly when it is a non-empty string. -/
theorem truthy_textField (v : JSVal) (h : isTextField v = true) :
    truthy v = isNonEmptyString v := by
  cases v <;> simp_all [isTextField, truthy, isNonEmptyString]

/-- The two pages define the same function. -/
theorem RideRequests.getLocationString_eq (location : JSVal) :
    RideRequests.getLocationString location = MyRides.getLocationString location := rfl

/-- C17 (as amended): on a location whose `cachedName`, `address` and `name` are strings
when present,
`getLocationString` returns `cachedName` if it is non-empty, else `address` if non-empty,
else `name` if non-empty, else `'Loading location...'` if `coordinates` is an array, else
the location itself if it is a non-empty string, else `'N/A'`; the result is a non-empty
string in every case. -/
theorem getLocationString_priority (location : JSVal)
    (hc : isTextField (location.optGet "cachedName") = true)
    (ha : isTextField (location.optGet "address") = true)
    (hn : isTextField (location.optGet "name") = true) :
    MyRides.getLocationString location =
      (if isNonEmptyString (location.optGet "cachedName") then location.optGet "cachedName"
       else if isNonEmptyString (location.optGet "address") then location.optGet "address"
       else if isNonEmptyString (location.optGet "name") then location.optGet "name"
       else if isArray (location.optGet "coordinates") then .str "Loading location..."
       else if isNonEmptyString location then location
       else .str "N/A") ∧
    RideRequests.getLocationString location = MyRides.getLocationString location ∧
    isNonEmptyString (MyRides.getLocationString location) = true := by
  have e1 := truthy_textField _ hc
  have e2 := truthy_textField _ ha
  have e3 := truthy_textField _ hn
  have harr : ∀ v, (truthy v && isArray v) = isArray v := by
    intro v; cases v <;> simp [truthy, isArray]
  refine ⟨?_, rfl, ?_⟩
  · unfold MyRides.getLocationString
    rw [e1, e2, e3, harr]
    by_cases hl : truthy location = true
    · have hs : isString location = isNonEmptyString location := by
        cases location <;> simp_all [truthy, isString, isNonEmptyString]
      simp [hl, hs]
    · have hund : ∀ k, location.optGet k = .undefined := by
        intro k; cases location <;> simp_all [truthy, JSVal.optGet]
      have hns : isNonEmptyString location = false := by
        cases location <;> simp_all [truthy, isNonEmptyString]
      have hu : isNonEmptyString .undefined = false := rfl
      have hau : isArray .undefined = false := rfl
      simp [hl, hund, hns, hu, hau]
  · unfold MyRides.getLocationString
    rw [e1, e2, e3, harr]
    by_cases hl : truthy location = true
    · have hs : isString location = isNonEmptyString location := by
        cases location <;> simp_all [truthy, isString, isNonEmptyString]
      simp only [hl, hs]
      repeat' split
      all_goals first | assumption | rfl
    · have hna : isNonEmptyString (.str "N/A") = true := rfl
      simp [hl, hna]

/-- The statement of C17 (as amended) on a location with an empty cached name and an
address. -/
theorem getLocationString_priority_witness :
    isTextField (sampleLocation.optGet "cachedName") = true ∧
    isTextField (sampleLocation.optGet "address") = true ∧
    isTextField (sampleLocation.optGet "name") = true ∧
    MyRides.getLocationString sampleLocation = .str "Connaught Place, Delhi" ∧
    isNonEmptyString (MyRides.getLocationString sampleLocation) = true :=
  ⟨rfl, rfl, rfl, rfl, (getLocationString_priority sampleLocation rfl rfl rfl).2.2⟩

/-- C17 (counterexample): for the location `{ cachedName: 5 }` `getLocationString` of
`MyRides` returns the number 5, and for the location `{ address: { city: 'Delhi' } }`
`getLocationString` of `RideRequests` returns the address object; neither result is a
non-empty string. -/
theorem getLocationString_returns_non_string :
    MyRides.getLocationString (.obj [("cachedName", .num 5)]) = .num 5 ∧
    isNonEmptyString (MyRides.getLocationString (.obj [("cachedName", .num 5)])) = false ∧
    isTextField ((JSVal.obj [("cachedName", .num 5)]).optGet "cachedName") = false ∧
    RideRequests.getLocationString (.obj [("address", .obj [("city", .str "Delhi")])]) =
      .obj [("city", .str "Delhi")] ∧
    isNonEmptyString
      (RideRequests.getLocationString (.obj [("address", .obj [("city", .str "Delhi")])])) =
      false := by
  refine ⟨rfl, rfl, rfl, rfl, rfl⟩

/-! ## RideRequests: whose entry the passengers lookup selects -/

/-- C18 (evaluation at the failing inputs): for the user `{ id: 'u1' }` the lookup in
`request.passengers` selects the entry `{ user: null, status: 'rejected' }`,
which carries no user identifier, ahead of the user's own entry, and the processed status
is `'rejected'`; for the user `{ _id: 'u1' }` the lookup in `request.ride.passengers`
selects the entry `{ status: 'cancelled' }`, which has no `user` at all. -/
theorem lookup_selects_entry_without_identifier :
    findM (RideRequests.passengerMatch userWithId)
        [anonymousEntry, .obj [("user", .str "u1"), ("status", .str "confirmed")]] =
      .ok anonymousEntry ∧
    entryIdentifiers anonymousEntry = [.undefined, .undefined] ∧
    entryOfUser userWithId anonymousEntry = false ∧
    RideRequests.passengersStatus userWithId requestWithAnonymousEntry =
      .ok (some (.str "rejected")) ∧
    RideRequests.fetchRideRequests_process userWithId requestWithAnonymousEntry =
      .ok { request := withStatus requestWithAnonymousEntry (.str "rejected"),
            refresh := none } ∧
    findM (RideRequests.ridePassengerMatch userWithUnderscoreId)
        [.obj [("status", .str "cancelled")],
         .obj [("user", .obj [("_id", .str "u1")]), ("status", .str "confirmed")]] =
      .ok (.obj [("status", .str "cancelled")]) ∧
    entryIdentifiers (.obj [("status", .str "cancelled")]) = [.undefined, .undefined] ∧
    RideRequests.fetchRideRequests_process userWithUnderscoreId
        requestWithNestedAnonymousEntry =
      .ok { request := withStatus requestWithNestedAnonymousEntry (.str "cancelled"),
            refresh := none } := by
  refine ⟨rfl, rfl, rfl, rfl, rfl, rfl, rfl, rfl⟩

/-- Where the debug log completes the two callbacks agree: for a logged-in user and a
request whose `passengers` field is absent or an array of entries, the callback of
`refreshRideRequests` computes the processed request (and the scheduled refresh) that
the callback of `fetchRideRequests` computes; and for every request and user, whenever
the callback of `fetchRideRequests` returns, the callback of `refreshRideRequests`
returns the same. -/
theorem refresh_processes_like_fetch (user : JSVal) (fs : List (String × JSVal))
    (hu : truthy user = true) (hp : passengerListShape (lookup "passengers" fs) = true) :
    RideRequests.refreshRideRequests_process user (.obj fs) =
      RideRequests.fetchRideRequests_process user (.obj fs) ∧
    (∀ (anyUser request : JSVal) (r : Processed),
      RideRequests.fetchRideRequests_process anyUser request = .ok r →
      RideRequests.refreshRideRequests_process anyUser request = .ok r) := by
  refine ⟨(fetch_process_eq_refresh _ _ (debugLog_ok user fs hu hp)).symm, ?_⟩
  intro anyUser request r h
  cases hd : RideRequests.debugLog anyUser request with
  | error e => rw [fetch_process_error _ _ _ hd] at h; simp at h
  | ok u => rw [← fetch_process_eq_refresh _ _ hd]; exact h

/-- The agreement of the two callbacks on a pending request whose status comes from
`ride.passengers`. -/
theorem refresh_processes_like_fetch_witness :
    truthy userWithId = true ∧
    passengerListShape (lookup "passengers" requestWithRideEntryFields) = true ∧
    RideRequests.refreshRideRequests_process userWithId (.obj requestWithRideEntryFields) =
      .ok { request := withStatus (.obj requestWithRideEntryFields) (.str "rejected"),
            refresh := none } ∧
    RideRequests.refreshRideRequests_process userWithId (.obj requestWithRideEntryFields) =
      RideRequests.fetchRideRequests_process userWithId (.obj requestWithRideEntryFields) :=
  ⟨rfl, rfl, rfl,
    (refresh_processes_like_fetch userWithId requestWithRideEntryFields rfl rfl).1⟩

/-! ## RideRequests: the debug log of the initial load -/

/-- C5 (evaluation at the failing inputs): for the user `{ id: 'u1' }` and the request
`{ id: 'r2', status: 'rejected', userRequestStatus: 'confirmed',
passengers: { u1: 'cancelled' } }` the callback of `fetchRideRequests` throws a
`TypeError` in its debug log (`request.passengers?.find` is no function) before it
reaches the `userRequestStatus` branch, so there is no processed request, while the
callback of `refreshRideRequests` returns the request with status `'confirmed'`; the
same happens for `passengers: [null]`, where the callback of `find` reads `p.user` of
`null`. -/
theorem userRequestStatus_lost_in_fetch :
    truthy (requestWithStatusAndPassengerMap.optGet "userRequestStatus") = true ∧
    RideRequests.fetchRideRequests_process userWithId requestWithStatusAndPassengerMap =
      .error .typeError ∧
    RideRequests.refreshRideRequests_process userWithId requestWithStatusAndPassengerMap =
      .ok { request := .obj [("id", .str "r2"), ("status", .str "confirmed"),
              ("userRequestStatus", .str "confirmed"),
              ("passengers", .obj [("u1", .str "cancelled")])],
            refresh := none } ∧
    truthy (requestWithStatusAndNullEntry.optGet "userRequestStatus") = true ∧
    RideRequests.fetchRideRequests_process userWithId requestWithStatusAndNullEntry =
      .error .typeError ∧
    RideRequests.refreshRideRequests_process userWithId requestWithStatusAndNullEntry =
      .ok { request := .obj [("id", .str "r3"), ("status", .str "confirmed"),
              ("userRequestStatus", .str "confirmed"), ("passengers", .arr [.null])],
            refresh := none } := by
  refine ⟨rfl, rfl, rfl, rfl, rfl, rfl⟩

/-- C19 (evaluation at the failing input): for the user `{ id: 'u1' }` and the request
`{ id: 'r10', passengers: { u1: 'confirmed' } }` the callback of `fetchRideRequests`
throws a `TypeError` in its debug log, which only that callback evaluates, while the
callback of `refreshRideRequests` returns the request with status `'pending'` and
schedules no refresh: the two do not compute the same processed request. -/
theorem refresh_differs_from_fetch :
    RideRequests.fetchRideRequests_process userWithId requestWithPassengerMap =
      .error .typeError ∧
    RideRequests.debugLog userWithId requestWithPassengerMap = .error .typeError ∧
    RideRequests.refreshRideRequests_process userWithId requestWithPassengerMap =
      .ok { request := .obj [("id", .str "r10"),
              ("passengers", .obj [("u1", .str "confirmed")]), ("status", .str "pending")],
            refresh := none } := by
  refine ⟨rfl, rfl, rfl⟩

/-! ## RideDetail and EditRide: a user without `id` and a creator without id -/

/-- For a user that carries a truthy `id`, `isCurrentUserDriver` holds exactly when the
ride carries a creator id and that id is the `id` of the user. -/
theorem isCurrentUserDriver_eq_isCreatorOf (user ride : JSVal)
    (hid : truthy (user.optGet "id") = true) :
    RideDetail.isCurrentUserDriver user ride = isCreatorOf user ride := by
  have hu : truthy user = true := by
    cases user <;> simp_all [JSVal.optGet, truthy]
  unfold RideDetail.isCurrentUserDriver isCreatorOf rideCreatorId
  by_cases hr : truthy ride = true
  · simp only [hu, hr, Bool.not_true, Bool.or_self, Bool.false_eq_true, if_false]
    cases h : strictEq (if isString (ride.optGet "creator") then ride.optGet "creator"
        else jsOr ((ride.optGet "creator").optGet "id") ((ride.optGet "creator").optGet "_id"))
        (user.optGet "id") with
    | false => simp
    | true => simp [strictEq_truthy _ _ h hid]
  · have hc : ride.optGet "creator" = .undefined := by
      cases ride <;> simp_all [truthy, JSVal.optGet]
    have tu : truthy .undefined = false := rfl
    have ou : ∀ k, JSVal.optGet .undefined k = .undefined := fun _ => rfl
    simp only [hc, ou, jsOr, tu]
    simp [hr, isString, tu]

/-- C13 (evaluation at the failing input): the user `{ _id: 'u1', name: 'Asha' }` is
logged in, has no request status and is not the creator of the active ride
`{ id: 'r7', creator: { firstName: 'Ravi' }, status: 'active', seatsAvailable: 2 }`,
which carries no creator id and displays two seats; `isCurrentUserDriver()` compares
the missing creator id with the missing `user.id`, takes the user for the driver, and
`canRequestRide()` is `false`. -/
theorem user_without_id_cannot_request :
    truthy userWithUnderscoreId = true ∧
    rideCreatorId rideOfUnidentifiedCreator = .undefined ∧
    userWithUnderscoreId.optGet "id" = .undefined ∧
    isCreatorOf userWithUnderscoreId rideOfUnidentifiedCreator = false ∧
    truthy JSVal.null = false ∧
    RideDetail.isRideCancelled rideOfUnidentifiedCreator = .bool false ∧
    RideDetail.isRideCompleted rideOfUnidentifiedCreator = .bool false ∧
    isSeatCount (rideOfUnidentifiedCreator.optGet "availableSeats") = true ∧
    isSeatCount (rideOfUnidentifiedCreator.optGet "seatsAvailable") = true ∧
    RideDetail.displayedSeats rideOfUnidentifiedCreator = .num 2 ∧
    RideDetail.isCurrentUserDriver userWithUnderscoreId rideOfUnidentifiedCreator = true ∧
    RideDetail.canRequestRide sampleBuiltins userWithUnderscoreId rideOfUnidentifiedCreator
      .null = .bool false ∧
    RideDetail.canRequestRide sampleBuiltins userWithId rideOfUnidentifiedCreator .null =
      .bool true := by
  refine ⟨rfl, rfl, rfl, rfl, rfl, rfl, rfl, rfl, rfl, rfl, rfl, rfl, rfl⟩

/-- C14 (evaluation at the failing input): the user `{ _id: 'u1', name: 'Asha' }` is
logged in, is not the creator of the completed ride
`{ id: 'r7', creator: { firstName: 'Ravi' }, status: 'completed', seatsAvailable: 2 }`,
which carries no creator id, and has the request status `'confirmed'`;
`isCurrentUserDriver()` compares the missing creator id with the missing `user.id`,
takes the user for the driver, and `canRateRide()` is `false`. -/
theorem confirmed_passenger_without_id_cannot_rate :
    truthy userWithUnderscoreId = true ∧
    rideCreatorId completedRideOfUnidentifiedCreator = .undefined ∧
    isCreatorOf userWithUnderscoreId completedRideOfUnidentifiedCreator = false ∧
    RideDetail.isRideCompleted completedRideOfUnidentifiedCreator = .bool true ∧
    RideDetail.isCurrentUserDriver userWithUnderscoreId completedRideOfUnidentifiedCreator =
      true ∧
    RideDetail.canRateRide userWithUnderscoreId completedRideOfUnidentifiedCreator
      (.str "confirmed") = .bool false ∧
    RideDetail.canRateRide userWithId completedRideOfUnidentifiedCreator (.str "confirmed") =
      .bool true := by
  refine ⟨rfl, rfl, rfl, rfl, rfl, rfl, rfl⟩

/-- For a user that carries a truthy `id` and a ride whose seat counts are absent or
integers that are not negative, `canRequestRide()` is truthy exactly when a user is
logged in, the user is not the creator of the ride, there is no request status, the
ride is neither cancelled nor completed, and the displayed seat count is above zero. -/
theorem canRequestRide_iff_creator (B : Builtins) (user ride requestStatus : JSVal)
    (hid : truthy (user.optGet "id") = true)
    (ha : isSeatCount (ride.optGet "availableSeats") = true)
    (hs : isSeatCount (ride.optGet "seatsAvailable") = true) :
    truthy (RideDetail.canRequestRide B user ride requestStatus) = true ↔
      (truthy user = true ∧ isCreatorOf user ride = false ∧
        truthy requestStatus = false ∧
        ride.optGet "status" ≠ .str "cancelled" ∧ ride.optGet "status" ≠ .str "completed" ∧
        numLt (.num 0) (RideDetail.displayedSeats ride) = true) := by
  rw [← isCurrentUserDriver_eq_isCreatorOf user ride hid]
  exact canRequestRide_iff B user ride requestStatus ha hs

/-- For a user that carries a truthy `id`, `canRateRide()` is truthy exactly when a
user is logged in, the user is not the creator of the ride, the status of the ride is
`'completed'` and the request status is `'confirmed'`. -/
theorem canRateRide_iff_creator (user ride requestStatus : JSVal)
    (hid : truthy (user.optGet "id") = true) :
    truthy (RideDetail.canRateRide user ride requestStatus) = true ↔
      (truthy user = true ∧ isCreatorOf user ride = false ∧
        ride.optGet "status" = .str "completed" ∧ requestStatus = .str "confirmed") := by
  rw [← isCurrentUserDriver_eq_isCreatorOf user ride hid]
  exact canRateRide_iff user ride requestStatus

/-- The ownership test of `fetchRideDetails` on a user and a ride that are not `null` or
`undefined`: the creator id of the ride is strictly equal to `user.id`. -/
theorem isOwner_eq (user rideData : JSVal) (hu : nullish user = false)
    (hr : nullish rideData = false) :
    EditRide.isOwner user rideData =
      .ok (strictEq (rideCreatorId rideData) (user.optGet "id")) := by
  unfold EditRide.isOwner rideCreatorId
  simp only [get_of_not_nullish _ _ hu, get_of_not_nullish _ _ hr, bind, Except.bind, pure,
    Except.pure]

/-- For a user that carries a truthy `id`, `fetchRideDetails` passes the ownership test
exactly when the user is the creator of the ride; otherwise it sets the error
`'You are not authorized to edit this ride'` and leaves the form data as it is. -/
theorem fetchRideDetails_of_user_with_id (B : Builtins) (user response rideData : JSVal)
    (hl : EditRide.loadedRide response = .ok rideData) (hr : nullish rideData = false)
    (hid : truthy (user.optGet "id") = true) :
    EditRide.isOwner user rideData = .ok (isCreatorOf user rideData) ∧
    (isCreatorOf user rideData = false →
      EditRide.fetchRideDetailsResolved B user response =
        [.setLoading true, .setError .null, .setState "ride" rideData,
         .setError (.str "You are not authorized to edit this ride"), .setLoading false]) ∧
    (isCreatorOf user rideData = true → ∀ formData,
      EditRide.rideFormData B rideData = .ok formData →
      EditRide.fetchRideDetailsResolved B user response =
        [.setLoading true, .setError .null, .setState "ride" rideData,
         .setState "formData" formData, .setLoading false]) := by
  have hu : nullish user = false := by
    cases user <;> simp_all [JSVal.optGet, truthy, nullish]
  have ho : EditRide.isOwner user rideData = .ok (isCreatorOf user rideData) := by
    rw [isOwner_eq user rideData hu hr]
    unfold isCreatorOf
    cases h : strictEq (rideCreatorId rideData) (user.optGet "id") with
    | false => simp
    | true => simp [strictEq_truthy _ _ h hid]
  refine ⟨ho, ?_, ?_⟩
  · intro hc
    simp [EditRide.fetchRideDetailsResolved, EditRide.fetchRideDetailsTry, hl, ho, hc]
  · intro hc formData hf
    simp [EditRide.fetchRideDetailsResolved, EditRide.fetchRideDetailsTry, hl, ho, hc, hf]

/-- C16 (evaluation at the failing input): for the user `{ _id: 'u1', name: 'Asha' }` and
the loaded ride `{ id: 'r7', creator: { firstName: 'Ravi' }, seatsAvailable: 2 }`, which
carries no creator id, the user is not the creator of the ride, but the ownership test
compares the missing creator id with the missing `user.id` and passes:
`fetchRideDetails` sets no error, populates the form with the data of the ride and the
page renders the form. -/
theorem form_populated_for_user_without_id :
    EditRide.loadedRide responseWithUnidentifiedCreator =
      .ok (.obj [("id", .str "r7"), ("creator", .obj [("firstName", .str "Ravi")]),
        ("seatsAvailable", .num 2)]) ∧
    rideCreatorId (.obj [("id", .str "r7"), ("creator", .obj [("firstName", .str "Ravi")]),
        ("seatsAvailable", .num 2)]) = .undefined ∧
    userWithUnderscoreId.optGet "id" = .undefined ∧
    isCreatorOf userWithUnderscoreId (.obj [("id", .str "r7"),
        ("creator", .obj [("firstName", .str "Ravi")]), ("seatsAvailable", .num 2)]) = false ∧
    EditRide.isOwner userWithUnderscoreId (.obj [("id", .str "r7"),
        ("creator", .obj [("firstName", .str "Ravi")]), ("seatsAvailable", .num 2)]) =
      .ok true ∧
    EditRide.fetchRideDetailsResolved sampleBuiltins userWithUnderscoreId
        responseWithUnidentifiedCreator =
      [.setLoading true, .setError .null,
       .setState "ride" (.obj [("id", .str "r7"),
         ("creator", .obj [("firstName", .str "Ravi")]), ("seatsAvailable", .num 2)]),
       .setState "formData" (.obj [("pickupLocation", .str ""), ("dropoffLocation", .str ""),
         ("departureTime", .str ""), ("price", .str ""), ("availableSeats", .num 2),
         ("carModel", .str ""), ("carNumber", .str ""),
         ("preferences", .obj [("smoking", .bool false), ("pets", .bool false),
           ("music", .bool false), ("gender", .str "any")]),
         ("additionalNotes", .str "")]),
       .setLoading false] ∧
    setsFormData (EditRide.fetchRideDetailsResolved sampleBuiltins userWithUnderscoreId
        responseWithUnidentifiedCreator) = true ∧
    ((EditRide.fetchRideDetailsResolved sampleBuiltins userWithUnderscoreId
        responseWithUnidentifiedCreator).foldl EditRide.State.apply
          EditRide.State.initial).error = .null ∧
    EditRide.view ((EditRide.fetchRideDetailsResolved sampleBuiltins userWithUnderscoreId
        responseWithUnidentifiedCreator).foldl EditRide.State.apply
          EditRide.State.initial) = .form ∧
    EditRide.fetchRideDetailsResolved sampleBuiltins userWithId
        responseWithUnidentifiedCreator =
      [.setLoading true, .setError .null,
       .setState "ride" (.obj [("id", .str "r7"),
         ("creator", .obj [("firstName", .str "Ravi")]), ("seatsAvailable", .num 2)]),
       .setError (.str "You are not authorized to edit this ride"), .setLoading false] := by
  refine ⟨rfl, rfl, rfl, rfl, rfl, rfl, rfl, rfl, rfl, rfl⟩

end GoTogether
